import Mathlib

/-!
# vtkRenderer: render orchestration

A shallow embedding of `graphics/vtkRenderer.cxx` (the frame orchestrator
`Render`, the time-allocation pipeline `AllocateTime`, the visible-bounds
aggregator `ComputeVisiblePropBounds`, the camera auto-framer
`ResetCamera` / `ResetCameraClippingRange` with `GetActiveCamera`, and the
lifecycle functions `GetMTime` and `UnRegister`), followed by theorems about
it.

Conventions of the embedding:
* `float` and `double` values are exact rationals (`ℚ`); rounding is not
  modelled.
* Objects reached through pointers (`vtkProp *`, `vtkCamera *`, ...) are
  records held by value; a null pointer is `none`.
* Time stamps (`vtkTimeStamp`, `unsigned long`) are natural numbers.
* `sqrt`, `tan` and `vtkMath::Pi()` are not part of this file of the
  repository; they are passed to the functions that use them.
-/

set_option autoImplicit false

namespace VTK

/-! ## Data model -/

/-- A `float[6]` bounding box `(xmin, xmax, ymin, ymax, zmin, zmax)`;
field `bi` is the array element `bounds[i]`. -/
structure Bounds where
  b0 : ℚ
  b1 : ℚ
  b2 : ℚ
  b3 : ℚ
  b4 : ℚ
  b5 : ℚ
deriving DecidableEq

/-- A `double[3]` vector; field `vi` is the array element `v[i]`. -/
structure Vec3 where
  v0 : ℚ
  v1 : ℚ
  v2 : ℚ
deriving DecidableEq

/-- A `float[4]` viewport `(xmin, ymin, xmax, ymax)` in normalised window
coordinates; field `vi` is the array element `Viewport[i]`. -/
structure Vec4 where
  v0 : ℚ
  v1 : ℚ
  v2 : ℚ
  v3 : ℚ
deriving DecidableEq

/-- Modelled from the spec: the prop abstraction (`vtkProp`, declared outside
this file of the repository). Each field is the value the accessor of the same
name returns: `GetVisibility()`, `GetBounds()` (`none` for a null pointer),
`RequiresRayCasting()`, `RequiresRenderingIntoImage()`,
`GetRenderTimeMultiplier()`, `GetRedrawMTime()`; `AllocatedRenderTime` is the
value last stored by `SetAllocatedRenderTime`. `Id` stands for the address of
the object. -/
structure vtkProp where
  Id : Nat
  Visibility : Bool
  Bounds : Option Bounds
  RequiresRayCasting : Bool
  RequiresRenderingIntoImage : Bool
  RenderTimeMultiplier : ℚ
  AllocatedRenderTime : ℚ
  RedrawMTime : Nat
deriving DecidableEq

/-- Modelled from the spec: `vtkProp::SetAllocatedRenderTime`, a plain store. -/
def vtkProp.SetAllocatedRenderTime (p : vtkProp) (t : ℚ) : vtkProp :=
  { p with AllocatedRenderTime := t }

/-- Modelled from the spec: a light (`vtkLight`), with its on/off switch
(`GetSwitch()`) and its modification time (`GetMTime()`). -/
structure vtkLight where
  Switch : Bool
  MTime : Nat
deriving DecidableEq

/-- Modelled from the spec: the camera abstraction (`vtkCamera`). The
setters used by the renderer are plain stores of their arguments. -/
structure vtkCamera where
  Position : Vec3
  FocalPoint : Vec3
  ViewUp : Vec3
  ViewPlaneNormal : Vec3
  ViewAngle : ℚ
  ClippingRange : ℚ × ℚ
  ParallelScale : ℚ
  MTime : Nat
deriving DecidableEq

/-- Modelled from the spec: the ray-casting collaborator (`vtkRayCaster`):
its back-pointer to a renderer (`GetRenderer()`, an object address or null)
and its modification time. -/
structure vtkRayCaster where
  Renderer : Option Nat
  MTime : Nat
deriving DecidableEq

/-- Raw pixel buffer (`unsigned char *`). -/
abbrev Image := List Nat

/-- Modelled from the spec: the window abstraction (`vtkRenderWindow`):
`GetSize()`, `GetMTime()` and the pixels `GetPixelData` reads back for a
rectangle. -/
structure vtkRenderWindow where
  Size : Int × Int
  MTime : Nat
  GetPixelData : Int → Int → Int → Int → Image

/-- What a culler hands back from `Cull(ren, propList, listLength, initialized)`:
the returned total time, and the array, the count and the flag it received by
reference, as it left them. -/
structure CullResult where
  totalTime : ℚ
  PropArray : List vtkProp
  PropArrayCount : Nat
  initialized : Bool

/-- Modelled from the spec: a culler (`vtkCuller`, pure virtual `Cull`): any
function of the prop array, the count and the initialized flag. Props are held
by value, so rewriting an entry of the array covers both reordering the
pointers and changing the prop an entry points to. The renderer argument is
left out: a culler that reads the renderer is one such function for each
renderer state. -/
structure vtkCuller where
  Cull : List vtkProp → Nat → Bool → CullResult

/-- The renderer (`vtkRenderer`, with the members it inherits from
`vtkViewport` and `vtkObject` that this file uses). `StartRenderMethod` and
`EndRenderMethod` tell whether the callback pointer of that name is set; the
callbacks are user code outside the repository and receive only their own
argument. -/
structure vtkRenderer where
  Id : Nat
  ReferenceCount : Nat
  MTime : Nat
  RenderTime : Nat
  Viewport : Vec4
  StartRenderMethod : Bool
  EndRenderMethod : Bool
  BackingStore : Bool
  BackingImage : Option Image
  LastRenderTimeInSeconds : ℚ
  AllocatedRenderTime : ℚ
  ActiveCamera : Option vtkCamera
  CreatedLight : Option vtkLight
  RayCaster : Option vtkRayCaster
  RenderWindow : Option vtkRenderWindow
  Lights : List vtkLight
  Props : List vtkProp
  Cullers : List vtkCuller
  PropArray : List vtkProp
  PropArrayCount : Nat
  RayCastPropArray : List vtkProp
  NumberOfPropsToRayCast : Nat
  RenderIntoImagePropArray : List vtkProp
  NumberOfPropsToRenderIntoImage : Nat

/-! ## `AllocateTime` -/

/-- Local variables of `AllocateTime` that the culler loop updates, together
with the two members it passes by reference. -/
structure CullState where
  totalTime : ℚ
  PropArray : List vtkProp
  PropArrayCount : Nat
  initialized : Bool

/-- One iteration of the culler loop:
`totalTime = aCuller->Cull(this, PropArray, PropArrayCount, initialized)`. -/
def cullStep (s : CullState) (aCuller : vtkCuller) : CullState :=
  let res := aCuller.Cull s.PropArray s.PropArrayCount s.initialized
  { totalTime := res.totalTime
    PropArray := res.PropArray
    PropArrayCount := res.PropArrayCount
    initialized := res.initialized }

/-- The culler loop of `AllocateTime`, started from
`totalTime = PropArrayCount` and `initialized = 0`. -/
def runCullers (r : vtkRenderer) : CullState :=
  r.Cullers.foldl cullStep
    { totalTime := (r.PropArrayCount : ℚ)
      PropArray := r.PropArray
      PropArrayCount := r.PropArrayCount
      initialized := false }

/-- Body of the allocation loop for one prop:
`renderTime = initialized ? GetRenderTimeMultiplier() : 1.0` and
`SetAllocatedRenderTime((renderTime / totalTime) * AllocatedRenderTime)`. -/
def allocateProp (initialized : Bool) (totalTime AllocatedRenderTime : ℚ)
    (aProp : vtkProp) : vtkProp :=
  let renderTime : ℚ := if initialized then aProp.RenderTimeMultiplier else 1
  aProp.SetAllocatedRenderTime ((renderTime / totalTime) * AllocatedRenderTime)

/-- The allocation loop `for (i = 0; i < PropArrayCount; i++)`: the entries
`PropArray[0..PropArrayCount)` are updated, the rest of the array is left
alone. (A count beyond the end of the array would read outside it; the loop
then stops at the end of the array.) -/
def allocateLoop (s : CullState) (AllocatedRenderTime : ℚ) : List vtkProp :=
  (s.PropArray.take s.PropArrayCount).map
      (allocateProp s.initialized s.totalTime AllocatedRenderTime)
    ++ s.PropArray.drop s.PropArrayCount

/-- The two sub-arrays and their counts, as the partition loop builds them. -/
structure PartitionState where
  RayCastPropArray : List vtkProp
  NumberOfPropsToRayCast : Nat
  RenderIntoImagePropArray : List vtkProp
  NumberOfPropsToRenderIntoImage : Nat

/-- Body of the partition loop for one prop; `arr[n++] = aProp` on an array
whose first `n` entries are the ones written so far appends the prop. -/
def partitionStep (st : PartitionState) (aProp : vtkProp) : PartitionState :=
  let st1 : PartitionState :=
    if aProp.RequiresRayCasting then
      { st with
        RayCastPropArray := st.RayCastPropArray ++ [aProp]
        NumberOfPropsToRayCast := st.NumberOfPropsToRayCast + 1 }
    else st
  if aProp.RequiresRenderingIntoImage then
    { st1 with
      RenderIntoImagePropArray := st1.RenderIntoImagePropArray ++ [aProp]
      NumberOfPropsToRenderIntoImage := st1.NumberOfPropsToRenderIntoImage + 1 }
  else st1

/-- The partition loop, started from both counts at 0. -/
def partitionLoop (PropArray : List vtkProp) (PropArrayCount : Nat) : PartitionState :=
  (PropArray.take PropArrayCount).foldl partitionStep
    { RayCastPropArray := []
      NumberOfPropsToRayCast := 0
      RenderIntoImagePropArray := []
      NumberOfPropsToRenderIntoImage := 0 }

/-- `vtkRenderer::AllocateTime`. -/
def AllocateTime (r : vtkRenderer) : vtkRenderer :=
  let s := runCullers r
  let PropArray := allocateLoop s r.AllocatedRenderTime
  let st := partitionLoop PropArray s.PropArrayCount
  { r with
    PropArray := PropArray
    PropArrayCount := s.PropArrayCount
    RayCastPropArray := st.RayCastPropArray
    NumberOfPropsToRayCast := st.NumberOfPropsToRayCast
    RenderIntoImagePropArray := st.RenderIntoImagePropArray
    NumberOfPropsToRenderIntoImage := st.NumberOfPropsToRenderIntoImage }

/-! ## `ComputeVisiblePropBounds` -/

/-- The test `bounds != NULL && bounds[0] > -VTK_LARGE_FLOAT && bounds[1] <
VTK_LARGE_FLOAT && ...` applied to the bounds of a visible prop. -/
def notBogus (L : ℚ) (bounds : Bounds) : Bool :=
  decide (bounds.b0 > -L) && decide (bounds.b1 < L) &&
  decide (bounds.b2 > -L) && decide (bounds.b3 < L) &&
  decide (bounds.b4 > -L) && decide (bounds.b5 < L)

/-- The six guarded assignments that widen `allBounds` by `bounds`. -/
def widen (allBounds bounds : Bounds) : Bounds :=
  { b0 := if bounds.b0 < allBounds.b0 then bounds.b0 else allBounds.b0
    b1 := if bounds.b1 > allBounds.b1 then bounds.b1 else allBounds.b1
    b2 := if bounds.b2 < allBounds.b2 then bounds.b2 else allBounds.b2
    b3 := if bounds.b3 > allBounds.b3 then bounds.b3 else allBounds.b3
    b4 := if bounds.b4 < allBounds.b4 then bounds.b4 else allBounds.b4
    b5 := if bounds.b5 > allBounds.b5 then bounds.b5 else allBounds.b5 }

/-- Body of the loop over all props; the state is `allBounds` together with
the local flag `nothingVisible`. -/
def boundsStep (L : ℚ) (st : Bounds × Bool) (prop : vtkProp) : Bounds × Bool :=
  if prop.Visibility then
    match prop.Bounds with
    | some bounds => if notBogus L bounds then (widen st.1 bounds, false) else st
    | none => st
  else st

/-- The loop of `ComputeVisiblePropBounds`, from the sentinel box and
`nothingVisible = 1`; `L` is `VTK_LARGE_FLOAT`. -/
def boundsLoop (L : ℚ) (Props : List vtkProp) : Bounds × Bool :=
  Props.foldl (boundsStep L)
    ({ b0 := L, b1 := -L, b2 := L, b3 := -L, b4 := L, b5 := -L }, true)

/-- `vtkRenderer::ComputeVisiblePropBounds`: the box left in `allBounds`
(the flag only selects a debug message). -/
def ComputeVisiblePropBounds (L : ℚ) (Props : List vtkProp) : Bounds :=
  (boundsLoop L Props).1

/-! ## Camera auto-framing -/

/-- What the camera code takes from outside this file: the macro
`VTK_LARGE_FLOAT`, the library functions `sqrt` and `tan`, the constant
`vtkMath::Pi()`, and the camera `vtkCamera::New()` constructs. -/
structure Externals where
  VTK_LARGE_FLOAT : ℚ
  sqrt : ℚ → ℚ
  tan : ℚ → ℚ
  Pi : ℚ
  NewCamera : vtkCamera

/-- `vtkMath::Dot`. -/
def Dot (x y : Vec3) : ℚ :=
  x.v0 * y.v0 + x.v1 * y.v1 + x.v2 * y.v2

/-- Modelled from the spec: `vtkCamera::SetViewUp`, a plain store. -/
def vtkCamera.SetViewUp (c : vtkCamera) (x y z : ℚ) : vtkCamera :=
  { c with ViewUp := { v0 := x, v1 := y, v2 := z } }

/-- Modelled from the spec: `vtkCamera::SetFocalPoint`, a plain store. -/
def vtkCamera.SetFocalPoint (c : vtkCamera) (x y z : ℚ) : vtkCamera :=
  { c with FocalPoint := { v0 := x, v1 := y, v2 := z } }

/-- Modelled from the spec: `vtkCamera::SetPosition`, a plain store. -/
def vtkCamera.SetPosition (c : vtkCamera) (x y z : ℚ) : vtkCamera :=
  { c with Position := { v0 := x, v1 := y, v2 := z } }

/-- Modelled from the spec: `vtkCamera::SetClippingRange`, a plain store. -/
def vtkCamera.SetClippingRange (c : vtkCamera) (range : ℚ × ℚ) : vtkCamera :=
  { c with ClippingRange := range }

/-- Modelled from the spec: `vtkCamera::SetParallelScale`, a plain store. -/
def vtkCamera.SetParallelScale (c : vtkCamera) (scale : ℚ) : vtkCamera :=
  { c with ParallelScale := scale }

/-- The local `width` of `ResetCamera(bounds)`. -/
def resetWidth (bounds : Bounds) : ℚ :=
  let width := bounds.b3 - bounds.b2
  if width < bounds.b1 - bounds.b0 then bounds.b1 - bounds.b0 else width

/-- The local `distance` of `ResetCamera(bounds)` for a camera with the
given view angle. -/
def resetDistance (e : Externals) (ViewAngle : ℚ) (bounds : Bounds) : ℚ :=
  let distance := 0.8 * resetWidth bounds / e.tan (ViewAngle * e.Pi / 360)
  distance + (bounds.b5 - bounds.b4) / 2

/-- The local `range` of `ResetCameraClippingRange(bounds)` for a camera
with view-plane normal `vn` at `position`. -/
def clippingRange (e : Externals) (vn position : Vec3) (bounds : Bounds) : ℚ × ℚ :=
  let a := -vn.v0
  let b := -vn.v1
  let c := -vn.v2
  let d := -(a * position.v0 + b * position.v1 + c * position.v2)
  let diagdist :=
    e.sqrt ((bounds.b0 - bounds.b1) * (bounds.b0 - bounds.b1) +
            (bounds.b2 - bounds.b3) * (bounds.b2 - bounds.b3) +
            (bounds.b4 - bounds.b5) * (bounds.b4 - bounds.b5))
  let centerdist :=
    a * (bounds.b0 + bounds.b1) / 2 +
    b * (bounds.b2 + bounds.b3) / 2 +
    c * (bounds.b4 + bounds.b5) / 2 +
    d
  let range0 := centerdist - 0.5 * diagdist
  let range1 := centerdist + 0.5 * diagdist
  let range0 := if range0 < 0.01 then 0.01 else range0
  let range1 := if range1 < range0 then range0 + 0.1 else range1
  (range0, range1)

/-- Termination measure of the mutually recursive camera functions: whether
the renderer still lacks a camera. -/
def noCamera (r : vtkRenderer) : Nat :=
  match r.ActiveCamera with
  | none => 1
  | some _ => 0

mutual

/-- `vtkRenderer::GetActiveCamera`; the result is the renderer afterwards,
whose `ActiveCamera` is the pointer returned. -/
def GetActiveCamera (e : Externals) (r : vtkRenderer) : vtkRenderer :=
  if _ : r.ActiveCamera = none then
    ResetCamera e { r with ActiveCamera := some e.NewCamera }
  else
    r
termination_by (noCamera r, 0)
decreasing_by
  simp_all [noCamera, Prod.lex_def]

/-- `vtkRenderer::ResetCamera()`. -/
def ResetCamera (e : Externals) (r : vtkRenderer) : vtkRenderer :=
  let allBounds := ComputeVisiblePropBounds e.VTK_LARGE_FLOAT r.Props
  if allBounds.b0 = e.VTK_LARGE_FLOAT then
    r
  else
    ResetCameraBounds e r allBounds
termination_by (noCamera r, 3)
decreasing_by
  simp [Prod.lex_def]

/-- `vtkRenderer::ResetCamera(float bounds[6])`. The first branch on
`ActiveCamera` is the null test of the source; the last one stands for the
call `ActiveCamera->SetParallelScale(width)`, where the source does not test
the pointer again. -/
def ResetCameraBounds (e : Externals) (r : vtkRenderer) (bounds : Bounds) : vtkRenderer :=
  let r1 := GetActiveCamera e r
  match r1.ActiveCamera with
  | none => r1
  | some cam =>
    let vn := cam.ViewPlaneNormal
    let center0 := (bounds.b0 + bounds.b1) / 2
    let center1 := (bounds.b2 + bounds.b3) / 2
    let center2 := (bounds.b4 + bounds.b5) / 2
    let width := resetWidth bounds
    let distance := resetDistance e cam.ViewAngle bounds
    let vup := cam.ViewUp
    let cam1 :=
      if |Dot vup vn| > 0.999 then cam.SetViewUp (-vup.v2) vup.v0 vup.v1 else cam
    let cam2 := cam1.SetFocalPoint center0 center1 center2
    let cam3 := cam2.SetPosition (center0 + distance * vn.v0)
      (center1 + distance * vn.v1) (center2 + distance * vn.v2)
    let r2 := ResetCameraClippingRangeBounds e { r1 with ActiveCamera := some cam3 } bounds
    match r2.ActiveCamera with
    | none => r2
    | some cam4 => { r2 with ActiveCamera := some (cam4.SetParallelScale width) }
termination_by (noCamera r, 2)
decreasing_by
  · simp [Prod.lex_def]
  · simp only [noCamera, Prod.lex_def]
    cases r.ActiveCamera <;> simp

/-- `vtkRenderer::ResetCameraClippingRange(float bounds[6])`; the branch on
`ActiveCamera` is the null test of the source. -/
def ResetCameraClippingRangeBounds (e : Externals) (r : vtkRenderer) (bounds : Bounds) :
    vtkRenderer :=
  let r1 := GetActiveCamera e r
  match r1.ActiveCamera with
  | none => r1
  | some cam =>
    let range := clippingRange e cam.ViewPlaneNormal cam.Position bounds
    { r1 with ActiveCamera := some (cam.SetClippingRange range) }
termination_by (noCamera r, 1)
decreasing_by
  simp [Prod.lex_def]

end

/-- `vtkRenderer::ResetCameraClippingRange()`. -/
def ResetCameraClippingRange (e : Externals) (r : vtkRenderer) : vtkRenderer :=
  let allBounds := ComputeVisiblePropBounds e.VTK_LARGE_FLOAT r.Props
  if allBounds.b0 = e.VTK_LARGE_FLOAT then
    r
  else
    ResetCameraClippingRangeBounds e r allBounds

/-! ## `Render` -/

/-- Calls that `Render` makes on its collaborators (and on `AllocateTime`),
in the order they are made. -/
inductive Event where
  | StartRenderMethod
  | EndRenderMethod
  | SetPixelData (rx1 ry1 rx2 ry2 : Int) (data : Image)
  | AllocateTime
  | DeviceRender
  | GetPixelData (rx1 ry1 rx2 ry2 : Int)
deriving DecidableEq

/-- The C cast `(int)x` of a floating-point value: truncation towards zero. -/
def truncToInt (x : ℚ) : Int :=
  Int.tdiv x.num (x.den : Int)

/-- The pixel range `rx1, ry1, rx2, ry2` of the renderer in a window of the
given size. -/
def pixelRange (Viewport : Vec4) (Size : Int × Int) : Int × Int × Int × Int :=
  (truncToInt (Viewport.v0 * ((Size.1 - 1 : Int) : ℚ)),
   truncToInt (Viewport.v1 * ((Size.2 - 1 : Int) : ℚ)),
   truncToInt (Viewport.v2 * ((Size.1 - 1 : Int) : ℚ)),
   truncToInt (Viewport.v3 * ((Size.2 - 1 : Int) : ℚ)))

/-- The condition `BackingStore && BackingImage && MTime < RenderTime &&
ActiveCamera->GetMTime() < RenderTime && RenderWindow->GetMTime() <
RenderTime`, evaluated left to right; `none` when the evaluation goes through
a null `ActiveCamera` or `RenderWindow`. -/
def backingStoreTest (r : vtkRenderer) : Option Bool :=
  if r.BackingStore && r.BackingImage.isSome && decide (r.MTime < r.RenderTime) then
    match r.ActiveCamera with
    | none => none
    | some cam =>
      if cam.MTime < r.RenderTime then
        match r.RenderWindow with
        | none => none
        | some win => some (decide (win.MTime < r.RenderTime))
      else some false
  else some false

/-- Body of the scan over the lights. -/
def lightStep (RenderTime : Nat) (mods : Bool) (light : vtkLight) : Bool :=
  if light.Switch && decide (light.MTime > RenderTime) then true else mods

/-- Body of the scan over the props. -/
def propStep (RenderTime : Nat) (mods : Bool) (aProp : vtkProp) : Bool :=
  if aProp.Visibility then
    if aProp.RedrawMTime > RenderTime then true else mods
  else mods

/-- The local `mods` after the scans over the lights and then the props,
from `mods = 0`. -/
def scanMods (r : vtkRenderer) : Bool :=
  r.Props.foldl (propStep r.RenderTime) (r.Lights.foldl (lightStep r.RenderTime) false)

/-- Body of the loop that fills `PropArray` with the visible props. -/
def visibleStep (PropArray : List vtkProp) (aProp : vtkProp) : List vtkProp :=
  if aProp.Visibility then PropArray ++ [aProp] else PropArray

/-- The part of `Render` after the backing-store test: build the visible set,
allocate time, render on the device, free the arrays and refill the backing
store. `DeviceRender` is the pure virtual member of that name; `t1` and `t2`
are the two clock readings. The result is the calls made so far and the
renderer on return, `none` when a null `RenderWindow` was dereferenced. -/
def renderScene (DeviceRender : vtkRenderer → vtkRenderer) (t1 t2 : ℚ)
    (r : vtkRenderer) (trace : List Event) : List Event × Option vtkRenderer :=
  let PropArray := r.Props.foldl visibleStep []
  let r1 : vtkRenderer :=
    { r with
      PropArray := PropArray
      RayCastPropArray := []
      RenderIntoImagePropArray := []
      PropArrayCount := PropArray.length }
  let r2 := AllocateTime r1
  let r3 := DeviceRender r2
  let r4 : vtkRenderer :=
    { r3 with PropArray := [], RayCastPropArray := [], RenderIntoImagePropArray := [] }
  let trace1 := trace ++ [Event.AllocateTime, Event.DeviceRender]
  if r4.BackingStore then
    match r4.RenderWindow with
    | none => (trace1, none)
    | some win =>
      let rg := pixelRange r4.Viewport win.Size
      (trace1 ++ [Event.GetPixelData rg.1 rg.2.1 rg.2.2.1 rg.2.2.2],
        some { r4 with
               BackingImage := some (win.GetPixelData rg.1 rg.2.1 rg.2.2.1 rg.2.2.2)
               LastRenderTimeInSeconds := t2 - t1 })
  else
    (trace1, some { r4 with LastRenderTimeInSeconds := t2 - t1 })

/-- `vtkRenderer::Render`: the calls made, in order, and the renderer on
return, `none` when a null `ActiveCamera` or `RenderWindow` was
dereferenced. -/
def Render (DeviceRender : vtkRenderer → vtkRenderer) (t1 t2 : ℚ)
    (r : vtkRenderer) : List Event × Option vtkRenderer :=
  let trace : List Event := if r.StartRenderMethod then [Event.StartRenderMethod] else []
  match backingStoreTest r with
  | none => (trace, none)
  | some false => renderScene DeviceRender t1 t2 r trace
  | some true =>
    if scanMods r then
      renderScene DeviceRender t1 t2 r trace
    else
      match r.RenderWindow, r.BackingImage with
      | some win, some image =>
        let rg := pixelRange r.Viewport win.Size
        let trace1 := trace ++ [Event.SetPixelData rg.1 rg.2.1 rg.2.2.1 rg.2.2.2 image]
        (if r.EndRenderMethod then trace1 ++ [Event.EndRenderMethod] else trace1, some r)
      | _, _ => (trace, none)

/-! ## `GetMTime` and `UnRegister` -/

/-- `vtkRenderer::GetMTime`. The call `vtkViewport::GetMTime()` of the base
class (outside this file of the repository) is modelled from the spec as the
viewport's own timestamp, the member `MTime`. -/
def GetMTime (r : vtkRenderer) : Nat :=
  let mTime := r.MTime
  let mTime :=
    match r.RayCaster with
    | some rayCaster => if rayCaster.MTime > mTime then rayCaster.MTime else mTime
    | none => mTime
  let mTime :=
    match r.ActiveCamera with
    | some camera => if camera.MTime > mTime then camera.MTime else mTime
    | none => mTime
  let mTime :=
    match r.CreatedLight with
    | some light => if light.MTime > mTime then light.MTime else mTime
    | none => mTime
  mTime

/-- Calls that `UnRegister` makes, in the order they are made: `Delete()` on
the ray caster held in `temp`, and the base-class `vtkObject::UnRegister`. -/
inductive RefEvent where
  | RayCasterDelete (temp : vtkRayCaster)
  | ObjectUnRegister
deriving DecidableEq

/-- What `UnRegister` takes from outside this file: the effect on the
renderer of `Delete()` on a ray caster (whatever the ray caster does to the
renderer while it is destroyed), and of the standard deref
`vtkObject::UnRegister`. -/
structure RefExternals where
  RayCasterDelete : vtkRayCaster → vtkRenderer → vtkRenderer
  ObjectUnRegister : vtkRenderer → vtkRenderer

/-- The `if` block of `UnRegister`: when the ray caster is non-null, points
back at this renderer and the reference count is 2, the `RayCaster` member is
set to null and `Delete()` is then called on the ray caster. The result is the
renderer afterwards and the calls made. -/
def releaseRayCaster (x : RefExternals) (r : vtkRenderer) : vtkRenderer × List RefEvent :=
  match r.RayCaster with
  | some temp =>
    if temp.Renderer = some r.Id ∧ r.ReferenceCount = 2 then
      (x.RayCasterDelete temp { r with RayCaster := none }, [RefEvent.RayCasterDelete temp])
    else
      (r, [])
  | none => (r, [])

/-- `vtkRenderer::UnRegister`: the `if` block, then `vtkObject::UnRegister`. -/
def UnRegister (x : RefExternals) (r : vtkRenderer) : vtkRenderer × List RefEvent :=
  let released := releaseRayCaster x r
  (x.ObjectUnRegister released.1, released.2 ++ [RefEvent.ObjectUnRegister])

/-! ## `AllocateTime` with the division checked -/

/-- The division of the allocation loop with the zero divisor made visible:
`none` when the divisor is zero (where the floating-point division of the
source yields an infinity or a NaN), the quotient otherwise. -/
def divideChecked (x y : ℚ) : Option ℚ :=
  if y = 0 then none else some (x / y)

/-- Body of the allocation loop for one prop, `none` when its division
`renderTime / totalTime` has a zero divisor. -/
def allocatePropChecked (initialized : Bool) (totalTime AllocatedRenderTime : ℚ)
    (aProp : vtkProp) : Option vtkProp :=
  let renderTime : ℚ := if initialized then aProp.RenderTimeMultiplier else 1
  match divideChecked renderTime totalTime with
  | none => none
  | some quotient => some (aProp.SetAllocatedRenderTime (quotient * AllocatedRenderTime))

/-- The iterations of the allocation loop over the given props, in order;
`none` as soon as one of them divides by zero. -/
def allocateAll (body : vtkProp → Option vtkProp) : List vtkProp → Option (List vtkProp)
  | [] => some []
  | aProp :: rest =>
    match body aProp with
    | none => none
    | some allocated =>
      match allocateAll body rest with
      | none => none
      | some others => some (allocated :: others)

/-- The allocation loop over `PropArray[0..PropArrayCount)` with every
division checked. -/
def allocateLoopChecked (s : CullState) (AllocatedRenderTime : ℚ) : Option (List vtkProp) :=
  match allocateAll (allocatePropChecked s.initialized s.totalTime AllocatedRenderTime)
      (s.PropArray.take s.PropArrayCount) with
  | none => none
  | some allocated => some (allocated ++ s.PropArray.drop s.PropArrayCount)

/-- `vtkRenderer::AllocateTime` with every division checked: `none` when the
allocation loop divides by a zero total time. -/
def AllocateTimeChecked (r : vtkRenderer) : Option vtkRenderer :=
  let s := runCullers r
  match allocateLoopChecked s r.AllocatedRenderTime with
  | none => none
  | some PropArray =>
    let st := partitionLoop PropArray s.PropArrayCount
    some
      { r with
        PropArray := PropArray
        PropArrayCount := s.PropArrayCount
        RayCastPropArray := st.RayCastPropArray
        NumberOfPropsToRayCast := st.NumberOfPropsToRayCast
        RenderIntoImagePropArray := st.RenderIntoImagePropArray
        NumberOfPropsToRenderIntoImage := st.NumberOfPropsToRenderIntoImage }

/-! ## Quantities the statements are about -/

/-- Sum, over the props `PropArray[0..PropArrayCount)`, of the allocated
render time each prop holds. -/
def allocatedSum (r : vtkRenderer) : ℚ :=
  ((r.PropArray.take r.PropArrayCount).map (fun p => p.AllocatedRenderTime)).sum

/-- The multiplier the allocation loop uses for a prop: its own render-time
multiplier once a culler has set the initialized flag, and 1 before. -/
def effectiveMultiplier (initialized : Bool) (p : vtkProp) : ℚ :=
  if initialized then p.RenderTimeMultiplier else 1

/-- A well-formed box: min ≤ max on each axis. -/
def wellFormed (b : Bounds) : Prop :=
  b.b0 ≤ b.b1 ∧ b.b2 ≤ b.b3 ∧ b.b4 ≤ b.b5

instance (b : Bounds) : Decidable (wellFormed b) := by
  unfold wellFormed
  infer_instance

/-- Finite bounds: all six values lie strictly between `-L` and `L`. -/
def strictlyInside (L : ℚ) (b : Bounds) : Prop :=
  (-L < b.b0 ∧ b.b0 < L) ∧ (-L < b.b1 ∧ b.b1 < L) ∧
  (-L < b.b2 ∧ b.b2 < L) ∧ (-L < b.b3 ∧ b.b3 < L) ∧
  (-L < b.b4 ∧ b.b4 < L) ∧ (-L < b.b5 ∧ b.b5 < L)

instance (L : ℚ) (b : Bounds) : Decidable (strictlyInside L b) := by
  unfold strictlyInside
  infer_instance

/-- The boxes of the visible props whose bounds are non-null and finite, in
the order of the prop list. -/
def finiteVisibleBoxes (L : ℚ) (Props : List vtkProp) : List Bounds :=
  Props.filterMap fun p =>
    if p.Visibility then
      match p.Bounds with
      | some b => if strictlyInside L b then some b else none
      | none => none
    else none

/-- The boxes that pass the test of the loop of `ComputeVisiblePropBounds`
(visible, non-null, `notBogus`), in the order of the prop list. -/
def aggregatedBoxes (L : ℚ) (Props : List vtkProp) : List Bounds :=
  Props.filterMap fun p =>
    if p.Visibility then
      match p.Bounds with
      | some b => if notBogus L b then some b else none
      | none => none
    else none

/-- The value `x` is the least element of the list. -/
def IsMinOf (x : ℚ) (l : List ℚ) : Prop :=
  x ∈ l ∧ ∀ y ∈ l, x ≤ y

/-- The value `x` is the greatest element of the list. -/
def IsMaxOf (x : ℚ) (l : List ℚ) : Prop :=
  x ∈ l ∧ ∀ y ∈ l, y ≤ x

/-- Center of a box. -/
def boxCenter (bounds : Bounds) : Vec3 :=
  { v0 := (bounds.b0 + bounds.b1) / 2
    v1 := (bounds.b2 + bounds.b3) / 2
    v2 := (bounds.b4 + bounds.b5) / 2 }

/-- Length of the diagonal of a box, with the square root taken by `e.sqrt`. -/
def boxDiagonal (e : Externals) (bounds : Bounds) : ℚ :=
  e.sqrt ((bounds.b1 - bounds.b0) ^ 2 + (bounds.b3 - bounds.b2) ^ 2 +
    (bounds.b5 - bounds.b4) ^ 2)

/-- Signed distance of the box center from the plane through the camera
position whose normal is the camera's forward direction `-vn`. -/
def centerDistance (cam : vtkCamera) (bounds : Bounds) : ℚ :=
  Dot { v0 := -cam.ViewPlaneNormal.v0, v1 := -cam.ViewPlaneNormal.v1,
        v2 := -cam.ViewPlaneNormal.v2 }
      { v0 := (boxCenter bounds).v0 - cam.Position.v0
        v1 := (boxCenter bounds).v1 - cam.Position.v1
        v2 := (boxCenter bounds).v2 - cam.Position.v2 }

/-- Some visible prop has a redraw time strictly newer than the last render. -/
def visiblePropNewer (r : vtkRenderer) : Prop :=
  ∃ p ∈ r.Props, p.Visibility = true ∧ r.RenderTime < p.RedrawMTime

/-- Some switched-on light has a modification time strictly newer than the
last render. -/
def enabledLightNewer (r : vtkRenderer) : Prop :=
  ∃ l ∈ r.Lights, l.Switch = true ∧ r.RenderTime < l.MTime

/-- The premise of the cache-correctness property read with "exceeds" as
"strictly greater than": backing store enabled, a cached image present, and
none of the renderer's own modification time, the camera's, the window's, an
enabled light's or a visible prop's redraw time strictly greater than the last
render timestamp. -/
def nothingExceeds (r : vtkRenderer) : Prop :=
  r.BackingStore = true ∧ r.BackingImage ≠ none ∧
  ¬ r.RenderTime < r.MTime ∧
  (∃ cam, r.ActiveCamera = some cam ∧ ¬ r.RenderTime < cam.MTime) ∧
  (∃ win, r.RenderWindow = some win ∧ ¬ r.RenderTime < win.MTime) ∧
  ¬ enabledLightNewer r ∧ ¬ visiblePropNewer r

/-- The time stamps `GetMTime` compares: the viewport's own and those of the
collaborators that are present. -/
def presentTimes (r : vtkRenderer) : List Nat :=
  [r.MTime] ++ (r.RayCaster.toList.map fun c => c.MTime) ++
    (r.ActiveCamera.toList.map fun c => c.MTime) ++
    (r.CreatedLight.toList.map fun c => c.MTime)

/-- The condition under which `UnRegister` breaks the ownership cycle: a ray
caster is held, it points back at this renderer, and the reference count is
exactly 2. -/
def cycleOnly (r : vtkRenderer) : Prop :=
  ∃ rc, r.RayCaster = some rc ∧ rc.Renderer = some r.Id ∧ r.ReferenceCount = 2

/-- The box `ComputeVisiblePropBounds` starts from and returns when nothing
widens it. -/
def sentinelBox (L : ℚ) : Bounds :=
  { b0 := L, b1 := -L, b2 := L, b3 := -L, b4 := L, b5 := -L }

/-- The box leaves the sentinel box as it is: none of the six guarded
assignments of the loop fires on it. -/
def widensNothing (L : ℚ) (b : Bounds) : Prop :=
  ¬ b.b0 < L ∧ ¬ b.b1 > -L ∧ ¬ b.b2 < L ∧ ¬ b.b3 > -L ∧ ¬ b.b4 < L ∧ ¬ b.b5 > -L

/-- A visible prop without geometry, flags off, multiplier 1. -/
def exampleProp (Id : Nat) : vtkProp :=
  { Id := Id
    Visibility := true
    Bounds := none
    RequiresRayCasting := false
    RequiresRenderingIntoImage := false
    RenderTimeMultiplier := 1
    AllocatedRenderTime := 0
    RedrawMTime := 0 }

/-- A renderer as the constructor leaves it (no camera, no window, backing
store off, `AllocatedRenderTime = 100`, a ray caster pointing back at it),
with empty collections. -/
def exampleRenderer : vtkRenderer :=
  { Id := 1
    ReferenceCount := 2
    MTime := 1
    RenderTime := 0
    Viewport := { v0 := 0, v1 := 0, v2 := 1, v3 := 1 }
    StartRenderMethod := false
    EndRenderMethod := false
    BackingStore := false
    BackingImage := none
    LastRenderTimeInSeconds := -1
    AllocatedRenderTime := 100
    ActiveCamera := none
    CreatedLight := none
    RayCaster := some { Renderer := some 1, MTime := 1 }
    RenderWindow := none
    Lights := []
    Props := []
    Cullers := []
    PropArray := []
    PropArrayCount := 0
    RayCastPropArray := []
    NumberOfPropsToRayCast := 0
    RenderIntoImagePropArray := []
    NumberOfPropsToRenderIntoImage := 0 }

/-- A culler that leaves the array, the count and the flag alone and returns
the given total time. -/
def constantTotalCuller (totalTime : ℚ) : vtkCuller :=
  { Cull := fun PropArray PropArrayCount initialized =>
      { totalTime := totalTime
        PropArray := PropArray
        PropArrayCount := PropArrayCount
        initialized := initialized } }

/-- A culler that culls every prop: count 0, total time 0, flag set. -/
def cullAllCuller : vtkCuller :=
  { Cull := fun PropArray _ _ =>
      { totalTime := 0
        PropArray := PropArray
        PropArrayCount := 0
        initialized := true } }

/-- A culler that initialises the allocation: it sets the flag and returns the
sum of the multipliers of the props it was given. -/
def sumCuller : vtkCuller :=
  { Cull := fun PropArray PropArrayCount _ =>
      { totalTime := ((PropArray.take PropArrayCount).map (fun p => p.RenderTimeMultiplier)).sum
        PropArray := PropArray
        PropArrayCount := PropArrayCount
        initialized := true } }

/-- One visible prop and a culler that reports a total time of 2. -/
def wrongTotalRenderer : vtkRenderer :=
  { exampleRenderer with
    PropArray := [exampleProp 1]
    PropArrayCount := 1
    Cullers := [constantTotalCuller 2] }

/-- One visible prop and a culler that culls it. -/
def cullAllRenderer : vtkRenderer :=
  { exampleRenderer with
    PropArray := [exampleProp 1]
    PropArrayCount := 1
    Cullers := [cullAllCuller] }

/-- One visible prop and a culler that reports a total time of 0. -/
def zeroTotalRenderer : vtkRenderer :=
  { exampleRenderer with
    PropArray := [exampleProp 1]
    PropArrayCount := 1
    Cullers := [constantTotalCuller 0] }

/-- Two visible props with multipliers 1 and 3, and the summing culler. -/
def weightedRenderer : vtkRenderer :=
  { exampleRenderer with
    PropArray := [exampleProp 1, { exampleProp 2 with RenderTimeMultiplier := 3 }]
    PropArrayCount := 2
    Cullers := [sumCuller] }

/-- Three visible props (the second flagged for both ray casting and
rendering into an image) and no cullers. -/
def threePropRenderer : vtkRenderer :=
  { exampleRenderer with
    PropArray :=
      [exampleProp 1,
       { exampleProp 2 with
         RequiresRayCasting := true
         RequiresRenderingIntoImage := true
         RenderTimeMultiplier := 5 },
       exampleProp 3]
    PropArrayCount := 3 }

/-- A visible prop with the given box. -/
def boxProp (Id : Nat) (b0 b1 b2 b3 b4 b5 : ℚ) : vtkProp :=
  { exampleProp Id with
    Bounds := some { b0 := b0, b1 := b1, b2 := b2, b3 := b3, b4 := b4, b5 := b5 } }

/-- A value for the macro `VTK_LARGE_FLOAT`. -/
def exampleLarge : ℚ := 10 ^ 38

/-- Two visible unit boxes at 0 and at 2. -/
def twoBoxProps : List vtkProp :=
  [boxProp 1 0 1 0 1 0 1, boxProp 4 2 3 2 3 2 3]

/-- The two visible boxes of `twoBoxProps` together with an invisible larger
box, a visible prop without bounds and a visible prop with sentinel bounds. -/
def fiveProps : List vtkProp :=
  [boxProp 1 0 1 0 1 0 1,
   { boxProp 2 (-10) 10 (-10) 10 (-10) 10 with Visibility := false },
   exampleProp 3,
   boxProp 4 2 3 2 3 2 3,
   boxProp 5 (-exampleLarge) exampleLarge (-exampleLarge) exampleLarge
     (-exampleLarge) exampleLarge]

/-- A camera at (0,0,1) looking at the origin, view-up (0,1,0), view-plane
normal (0,0,1), view angle 30 degrees. -/
def exampleCamera : vtkCamera :=
  { Position := { v0 := 0, v1 := 0, v2 := 1 }
    FocalPoint := { v0 := 0, v1 := 0, v2 := 0 }
    ViewUp := { v0 := 0, v1 := 1, v2 := 0 }
    ViewPlaneNormal := { v0 := 0, v1 := 0, v2 := 1 }
    ViewAngle := 30
    ClippingRange := (0.01, 1000.01)
    ParallelScale := 1
    MTime := 1 }

/-- Concrete externals: `Rat.sqrt` (exact on squares of rationals), a
polynomial approximation of the tangent, and 355/113 for pi. -/
def exampleExternals : Externals :=
  { VTK_LARGE_FLOAT := exampleLarge
    sqrt := Rat.sqrt
    tan := fun x => x + x ^ 3 / 3
    Pi := 355 / 113
    NewCamera := exampleCamera }

/-- The example renderer with the example camera active. -/
def cameraRenderer : vtkRenderer :=
  { exampleRenderer with ActiveCamera := some exampleCamera }

/-- The cube (-1,1,-1,1,-1,1). -/
def unitCube : Bounds :=
  { b0 := -1, b1 := 1, b2 := -1, b3 := 1, b4 := -1, b5 := 1 }

/-- A small flat box, 0.03 by 0.04, in the plane z = 0; its diagonal is 0.05. -/
def tinyBox : Bounds :=
  { b0 := 0, b1 := 3 / 100, b2 := 0, b3 := 4 / 100, b4 := 0, b5 := 0 }

/-- A box 2 by 1 by 2 with diagonal 3, centred at (1, 1/2, 1). -/
def diagonalThreeBox : Bounds :=
  { b0 := 0, b1 := 2, b2 := 0, b3 := 1, b4 := 0, b5 := 2 }

/-- The example renderer with a camera at (1, 1/2, 4) looking down the z
axis (view-plane normal (0,0,1)). -/
def farCameraRenderer : vtkRenderer :=
  { exampleRenderer with
    ActiveCamera := some { exampleCamera with Position := { v0 := 1, v1 := 1 / 2, v2 := 4 } } }

/-- A window of 300 by 300 pixels that reads back an empty buffer. -/
def exampleWindow (MTime : Nat) : vtkRenderWindow :=
  { Size := (300, 300)
    MTime := MTime
    GetPixelData := fun _ _ _ _ => [] }

/-- A renderer last rendered at time 5, backing store on with the cached image
`[7, 7, 7]`, with the given modification times of the renderer, its camera
and its window, and the given lights and props. -/
def cachedRenderer (MTime camMTime winMTime : Nat) (Lights : List vtkLight)
    (Props : List vtkProp) : vtkRenderer :=
  { exampleRenderer with
    MTime := MTime
    RenderTime := 5
    BackingStore := true
    BackingImage := some [7, 7, 7]
    ActiveCamera := some { exampleCamera with MTime := camMTime }
    RenderWindow := some (exampleWindow winMTime)
    Lights := Lights
    Props := Props }

/-- A standard deref that decrements the reference count, and a ray-caster
`Delete()` that drops the reference the ray caster held on the renderer. -/
def countingExternals : RefExternals :=
  { RayCasterDelete := fun _ r => { r with ReferenceCount := r.ReferenceCount - 1 }
    ObjectUnRegister := fun r => { r with ReferenceCount := r.ReferenceCount - 1 } }

/-- An invisible box, a visible prop without bounds and a visible prop with
sentinel bounds: no prop is visible with non-null finite bounds. -/
def noFiniteProps : List vtkProp :=
  [{ boxProp 2 (-10) 10 (-10) 10 (-10) 10 with Visibility := false },
   exampleProp 3,
   boxProp 5 (-exampleLarge) exampleLarge (-exampleLarge) exampleLarge
     (-exampleLarge) exampleLarge]

/-- A visible prop whose bounds are the inverted sentinel box, as an empty
point set reports them. -/
def invertedSentinelProps : List vtkProp :=
  [boxProp 1 exampleLarge (-exampleLarge) exampleLarge (-exampleLarge)
     exampleLarge (-exampleLarge)]

/-- The example renderer with the example camera active and the given props. -/
def propsRenderer (Props : List vtkProp) : vtkRenderer :=
  { cameraRenderer with Props := Props }

/-- A camera whose view-up and view-plane normal are both the given vector. -/
def parallelCamera (x y z : ℚ) : vtkCamera :=
  { exampleCamera with
    ViewUp := { v0 := x, v1 := y, v2 := z }
    ViewPlaneNormal := { v0 := x, v1 := y, v2 := z } }

/-- The example renderer with such a camera active. -/
def parallelRenderer (x y z : ℚ) : vtkRenderer :=
  { exampleRenderer with ActiveCamera := some (parallelCamera x y z) }

/-- A visible prop whose box (5, -2L, 0, 1, 0, 1) has an x maximum beyond the
negative sentinel: its bounds are not finite, yet it passes the test of the
loop. -/
def beyondSentinelProps : List vtkProp :=
  [boxProp 1 5 (-2 * exampleLarge) 0 1 0 1]

theorem take_allocateLoop (s : CullState) (A : ℚ) :
    (allocateLoop s A).take s.PropArrayCount =
      (s.PropArray.take s.PropArrayCount).map (allocateProp s.initialized s.totalTime A) := by
  unfold allocateLoop
  rw [List.take_append_eq_append_take]
  simp only [List.length_map, List.length_take]
  rcases Nat.le_total s.PropArrayCount s.PropArray.length with h | h
  · simp [Nat.min_eq_left h, List.take_take, ← List.map_take]
  · simp [Nat.min_eq_right h, List.drop_eq_nil_of_le h, ← List.map_take, List.take_take]

/-- The partition loop appends to each sub-array the props with the matching flag,
in order, and advances the count by their number. -/
theorem foldl_partitionStep (l : List vtkProp) (st : PartitionState) :
    l.foldl partitionStep st =
      { RayCastPropArray := st.RayCastPropArray ++ l.filter (fun p => p.RequiresRayCasting)
        NumberOfPropsToRayCast :=
          st.NumberOfPropsToRayCast + (l.filter (fun p => p.RequiresRayCasting)).length
        RenderIntoImagePropArray :=
          st.RenderIntoImagePropArray ++ l.filter (fun p => p.RequiresRenderingIntoImage)
        NumberOfPropsToRenderIntoImage :=
          st.NumberOfPropsToRenderIntoImage +
            (l.filter (fun p => p.RequiresRenderingIntoImage)).length } := by
  induction l generalizing st with
  | nil => simp
  | cons p l ih =>
    rw [List.foldl_cons, ih]
    unfold partitionStep
    cases h1 : p.RequiresRayCasting <;> cases h2 : p.RequiresRenderingIntoImage <;>
      simp [h1, h2, List.filter_cons, Nat.add_assoc, Nat.add_comm 1]

/-- The sum of the allocated times after `AllocateTime`, written over the props the
culler chain leaves. -/
theorem allocatedSum_AllocateTime (r : vtkRenderer) :
    allocatedSum (AllocateTime r) =
      (((runCullers r).PropArray.take (runCullers r).PropArrayCount).map
        (fun p => effectiveMultiplier (runCullers r).initialized p / (runCullers r).totalTime *
          r.AllocatedRenderTime)).sum := by
  unfold allocatedSum
  simp only [AllocateTime]
  rw [take_allocateLoop, List.map_map]
  rfl

/-- A common divisor and factor move out of a sum over props. -/
theorem sum_map_div_mul (l : List vtkProp) (f : vtkProp → ℚ) (t A : ℚ) :
    (l.map (fun p => f p / t * A)).sum = (l.map f).sum / t * A := by
  induction l with
  | nil => simp
  | cons p l ih => simp only [List.map_cons, List.sum_cons, ih]; ring

/-- Without cullers the culler loop leaves its initial state. -/
theorem runCullers_nil (r : vtkRenderer) (h : r.Cullers = []) :
    runCullers r =
      { totalTime := (r.PropArrayCount : ℚ)
        PropArray := r.PropArray
        PropArrayCount := r.PropArrayCount
        initialized := false } := by
  simp [runCullers, h]

/-! ## Claims on `AllocateTime` -/

/-- C1, as stated, fails: with one visible prop (N = 1) and the budget 100,
a culler that reports a total time of 2 leaves the sum of the allocated times
at 50, and a culler that culls the only prop leaves it at 0. -/
theorem AllocateTime_normalization_counterexample :
    (1 ≤ wrongTotalRenderer.PropArrayCount ∧
      wrongTotalRenderer.AllocatedRenderTime = 100 ∧
      allocatedSum (AllocateTime wrongTotalRenderer) = 50) ∧
    (1 ≤ cullAllRenderer.PropArrayCount ∧
      cullAllRenderer.AllocatedRenderTime = 100 ∧
      allocatedSum (AllocateTime cullAllRenderer) = 0) := by
  refine ⟨⟨by decide, rfl, ?_⟩, ⟨by decide, rfl, ?_⟩⟩
  · norm_num [allocatedSum, AllocateTime, wrongTotalRenderer, exampleRenderer, runCullers,
      cullStep, constantTotalCuller, allocateLoop, allocateProp,
      vtkProp.SetAllocatedRenderTime, exampleProp]
  · simp [allocatedSum, AllocateTime, cullAllRenderer, exampleRenderer, runCullers,
      cullStep, cullAllCuller]

/-- C1, amended: whenever the total time the culler chain leaves (the prop
count when there is no culler) is non-zero and equals the sum of the effective
multipliers of the props `PropArray[0..PropArrayCount)` the chain leaves, the
allocated render times of these props sum to the renderer's
`AllocatedRenderTime`. -/
theorem AllocateTime_normalization (r : vtkRenderer)
    (hne : (runCullers r).totalTime ≠ 0)
    (hsum : (((runCullers r).PropArray.take (runCullers r).PropArrayCount).map
        (effectiveMultiplier (runCullers r).initialized)).sum = (runCullers r).totalTime) :
    allocatedSum (AllocateTime r) = r.AllocatedRenderTime := by
  rw [allocatedSum_AllocateTime, sum_map_div_mul, hsum, div_self hne, one_mul]

/-- Witness for C1 amended: two props with multipliers 1 and 3 under a culler
that returns their sum 4; the allocated times 25 and 75 sum to 100. -/
theorem AllocateTime_normalization_witness :
    (runCullers weightedRenderer).totalTime ≠ 0 ∧
    allocatedSum (AllocateTime weightedRenderer) = 100 := by
  have hne : (runCullers weightedRenderer).totalTime ≠ 0 := by
    norm_num [runCullers, weightedRenderer, exampleRenderer, cullStep, sumCuller, exampleProp]
  have hsum : (((runCullers weightedRenderer).PropArray.take
        (runCullers weightedRenderer).PropArrayCount).map
        (effectiveMultiplier (runCullers weightedRenderer).initialized)).sum =
      (runCullers weightedRenderer).totalTime := by
    norm_num [runCullers, weightedRenderer, exampleRenderer, cullStep, sumCuller, exampleProp,
      effectiveMultiplier]
  exact ⟨hne, AllocateTime_normalization weightedRenderer hne hsum⟩

/-- C5: after `AllocateTime` the first `NumberOfPropsToRayCast` entries of
`RayCastPropArray` are the props of `PropArray[0..PropArrayCount)` that
require ray casting, in the same order, and the first
`NumberOfPropsToRenderIntoImage` entries of `RenderIntoImagePropArray` are
those that require rendering into an image, in the same order; a prop that
occurs once in `PropArray[0..PropArrayCount)` with both flags set occurs once
in each sub-array, and a prop with neither flag occurs in neither. -/
theorem AllocateTime_partition (r : vtkRenderer) :
    let r' := AllocateTime r
    let props := r'.PropArray.take r'.PropArrayCount
    r'.RayCastPropArray.take r'.NumberOfPropsToRayCast =
        props.filter (fun p => p.RequiresRayCasting) ∧
    r'.NumberOfPropsToRayCast = (props.filter (fun p => p.RequiresRayCasting)).length ∧
    r'.RenderIntoImagePropArray.take r'.NumberOfPropsToRenderIntoImage =
        props.filter (fun p => p.RequiresRenderingIntoImage) ∧
    r'.NumberOfPropsToRenderIntoImage =
        (props.filter (fun p => p.RequiresRenderingIntoImage)).length ∧
    (∀ p : vtkProp, p.RequiresRayCasting = true → p.RequiresRenderingIntoImage = true →
      props.count p = 1 →
      (r'.RayCastPropArray.take r'.NumberOfPropsToRayCast).count p = 1 ∧
      (r'.RenderIntoImagePropArray.take r'.NumberOfPropsToRenderIntoImage).count p = 1) ∧
    (∀ p : vtkProp, p.RequiresRayCasting = false → p.RequiresRenderingIntoImage = false →
      p ∉ r'.RayCastPropArray.take r'.NumberOfPropsToRayCast ∧
      p ∉ r'.RenderIntoImagePropArray.take r'.NumberOfPropsToRenderIntoImage) := by
  intro r' props
  have hR : r'.RayCastPropArray = props.filter (fun p => p.RequiresRayCasting) := by
    simp [r', props, AllocateTime, partitionLoop, foldl_partitionStep]
  have hI : r'.RenderIntoImagePropArray =
      props.filter (fun p => p.RequiresRenderingIntoImage) := by
    simp [r', props, AllocateTime, partitionLoop, foldl_partitionStep]
  have hRn : r'.NumberOfPropsToRayCast =
      (props.filter (fun p => p.RequiresRayCasting)).length := by
    simp [r', props, AllocateTime, partitionLoop, foldl_partitionStep]
  have hIn : r'.NumberOfPropsToRenderIntoImage =
      (props.filter (fun p => p.RequiresRenderingIntoImage)).length := by
    simp [r', props, AllocateTime, partitionLoop, foldl_partitionStep]
  have hRt : r'.RayCastPropArray.take r'.NumberOfPropsToRayCast =
      props.filter (fun p => p.RequiresRayCasting) := by
    rw [hRn, hR, List.take_length]
  have hIt : r'.RenderIntoImagePropArray.take r'.NumberOfPropsToRenderIntoImage =
      props.filter (fun p => p.RequiresRenderingIntoImage) := by
    rw [hIn, hI, List.take_length]
  refine ⟨hRt, hRn, hIt, hIn, ?_, ?_⟩
  · intro p h1 h2 hc
    rw [hRt, hIt, List.count_filter h1, List.count_filter h2]
    exact ⟨hc, hc⟩
  · intro p h1 h2
    rw [hRt, hIt]
    simp [List.mem_filter, h1, h2]

/-- C10: with an empty culler collection, `AllocateTime` leaves the
initialized flag false, leaves the count and the order of `PropArray`
unchanged (each of the first `PropArrayCount` entries is the same prop with
only its allocated time replaced), and assigns every prop of
`PropArray[0..PropArrayCount)` the time `AllocatedRenderTime / N`, whatever
the prop's own multiplier; `N` is the prop count. -/
theorem AllocateTime_equal_division (r : vtkRenderer) (hC : r.Cullers = []) :
    (runCullers r).initialized = false ∧
    (AllocateTime r).PropArrayCount = r.PropArrayCount ∧
    (AllocateTime r).PropArray =
      (r.PropArray.take r.PropArrayCount).map
          (fun p => { p with
            AllocatedRenderTime := r.AllocatedRenderTime / (r.PropArrayCount : ℚ) })
        ++ r.PropArray.drop r.PropArrayCount ∧
    (AllocateTime r).PropArray.map (fun p => p.Id) = r.PropArray.map (fun p => p.Id) ∧
    ∀ p ∈ (AllocateTime r).PropArray.take (AllocateTime r).PropArrayCount,
      p.AllocatedRenderTime = r.AllocatedRenderTime / (r.PropArrayCount : ℚ) := by
  have hrun := runCullers_nil r hC
  have hfun : allocateProp false (r.PropArrayCount : ℚ) r.AllocatedRenderTime =
      fun p => { p with
        AllocatedRenderTime := r.AllocatedRenderTime / (r.PropArrayCount : ℚ) } := by
    funext p
    simp only [allocateProp, vtkProp.SetAllocatedRenderTime, Bool.false_eq_true, if_false]
    rw [div_mul_eq_mul_div, one_mul]
  have hcount : (AllocateTime r).PropArrayCount = r.PropArrayCount := by
    simp [AllocateTime, hrun]
  have harr : (AllocateTime r).PropArray =
      (r.PropArray.take r.PropArrayCount).map
          (fun p => { p with
            AllocatedRenderTime := r.AllocatedRenderTime / (r.PropArrayCount : ℚ) })
        ++ r.PropArray.drop r.PropArrayCount := by
    simp [AllocateTime, allocateLoop, hrun, hfun]
  refine ⟨by rw [hrun], hcount, harr, ?_, ?_⟩
  · rw [harr, List.map_append, List.map_map]
    have : ((fun p : vtkProp => p.Id) ∘ fun p : vtkProp =>
        { p with AllocatedRenderTime := r.AllocatedRenderTime / (r.PropArrayCount : ℚ) }) =
        fun p => p.Id := rfl
    rw [this, ← List.map_append, List.take_append_drop]
  · intro p hp
    have htake : (AllocateTime r).PropArray.take (AllocateTime r).PropArrayCount =
        (r.PropArray.take r.PropArrayCount).map
          (allocateProp false (r.PropArrayCount : ℚ) r.AllocatedRenderTime) := by
      have h := take_allocateLoop (runCullers r) r.AllocatedRenderTime
      rw [hrun] at h
      simpa [AllocateTime, hrun] using h
    rw [htake, hfun, List.mem_map] at hp
    obtain ⟨q, _, rfl⟩ := hp
    rfl

/-- Witness for C10: three props with multipliers 1, 5 and 1 and no culler;
each is allocated 100/3. -/
theorem AllocateTime_equal_division_witness :
    threePropRenderer.Cullers = [] ∧
    (AllocateTime threePropRenderer).PropArrayCount = 3 ∧
    ∀ p ∈ (AllocateTime threePropRenderer).PropArray.take
        (AllocateTime threePropRenderer).PropArrayCount,
      p.AllocatedRenderTime = 100 / 3 := by
  have h := AllocateTime_equal_division threePropRenderer rfl
  refine ⟨rfl, h.2.1, fun p hp => ?_⟩
  have := h.2.2.2.2 p hp
  simpa [threePropRenderer, exampleRenderer] using this

/-! ## Lemmas on `ComputeVisiblePropBounds` -/

theorem foldl_boundsStep (L : ℚ) (Props : List vtkProp) (st : Bounds × Bool) :
    Props.foldl (boundsStep L) st =
      ((aggregatedBoxes L Props).foldl widen st.1,
        st.2 && (aggregatedBoxes L Props).isEmpty) := by
  induction Props generalizing st with
  | nil => simp [aggregatedBoxes]
  | cons p l ih =>
    rw [List.foldl_cons, ih]
    unfold boundsStep aggregatedBoxes
    cases hv : p.Visibility
    · simp [List.filterMap_cons, hv]
    · cases hb : p.Bounds with
      | none => simp [List.filterMap_cons, hv, hb]
      | some b =>
        cases hn : notBogus L b <;> simp [List.filterMap_cons, hv, hb, hn]

/-- The box returned is the sentinel box widened by each box that passes the test. -/
theorem ComputeVisiblePropBounds_eq_foldl (L : ℚ) (Props : List vtkProp) :
    ComputeVisiblePropBounds L Props =
      (aggregatedBoxes L Props).foldl widen
        { b0 := L, b1 := -L, b2 := L, b3 := -L, b4 := L, b5 := -L } := by
  simp [ComputeVisiblePropBounds, boundsLoop, foldl_boundsStep]

/-- For a well-formed box the six comparisons of the loop amount to all six values
lying strictly inside the sentinel range. -/
theorem notBogus_iff_strictlyInside (L : ℚ) (b : Bounds) (hwf : wellFormed b) :
    notBogus L b = true ↔ strictlyInside L b := by
  obtain ⟨h01, h23, h45⟩ := hwf
  simp only [notBogus, strictlyInside, Bool.and_eq_true, decide_eq_true_eq, gt_iff_lt]
  constructor
  · rintro ⟨⟨⟨⟨⟨h0, h1⟩, h2⟩, h3⟩, h4⟩, h5⟩
    exact ⟨⟨h0, lt_of_le_of_lt h01 h1⟩, ⟨lt_of_lt_of_le h0 h01, h1⟩,
      ⟨h2, lt_of_le_of_lt h23 h3⟩, ⟨lt_of_lt_of_le h2 h23, h3⟩,
      ⟨h4, lt_of_le_of_lt h45 h5⟩, ⟨lt_of_lt_of_le h4 h45, h5⟩⟩
  · rintro ⟨⟨h0, _⟩, ⟨_, h1⟩, ⟨h2, _⟩, ⟨_, h3⟩, ⟨h4, _⟩, ⟨_, h5⟩⟩
    exact ⟨⟨⟨⟨⟨h0, h1⟩, h2⟩, h3⟩, h4⟩, h5⟩

/-- When the visible props have well-formed boxes, the boxes that pass the test of
the loop are the visible finite boxes. -/
theorem aggregatedBoxes_eq_finiteVisibleBoxes (L : ℚ) (Props : List vtkProp)
    (hwf : ∀ p ∈ Props, p.Visibility = true → ∀ b, p.Bounds = some b → wellFormed b) :
    aggregatedBoxes L Props = finiteVisibleBoxes L Props := by
  induction Props with
  | nil => rfl
  | cons p l ih =>
    have ih' := ih (fun q hq => hwf q (List.mem_cons_of_mem _ hq))
    unfold aggregatedBoxes finiteVisibleBoxes at *
    rw [List.filterMap_cons, List.filterMap_cons, ih']
    cases hv : p.Visibility
    · simp
    · cases hb : p.Bounds with
      | none => simp
      | some b =>
        have hiff := notBogus_iff_strictlyInside L b (hwf p (List.mem_cons_self _ _) hv b hb)
        by_cases hs : strictlyInside L b
        · simp [hs, hiff.mpr hs]
        · have hn : notBogus L b = false := by
            cases h : notBogus L b
            · rfl
            · exact absurd (hiff.mp h) hs
          simp [hs, hn]

/-- A fold that keeps the smaller of the accumulator and a key ends at the
accumulator or at a key of the list, below both. -/
theorem foldl_min_spec (key : Bounds → ℚ) (get : Bounds → ℚ)
    (hstep : ∀ acc b, get (widen acc b) = if key b < get acc then key b else get acc)
    (Q : List Bounds) (acc : Bounds) :
    get (Q.foldl widen acc) ≤ get acc ∧
    (∀ b ∈ Q, get (Q.foldl widen acc) ≤ key b) ∧
    (get (Q.foldl widen acc) = get acc ∨ ∃ b ∈ Q, get (Q.foldl widen acc) = key b) := by
  induction Q generalizing acc with
  | nil => simp
  | cons b Q ih =>
    obtain ⟨h1, h2, h3⟩ := ih (widen acc b)
    have hle : get (widen acc b) ≤ get acc := by
      rw [hstep]; split_ifs with h
      · exact le_of_lt h
      · exact le_refl _
    have hle' : get (widen acc b) ≤ key b := by
      rw [hstep]; split_ifs with h
      · exact le_refl _
      · exact not_lt.mp h
    refine ⟨le_trans h1 hle, ?_, ?_⟩
    · intro c hc
      rcases List.mem_cons.mp hc with rfl | hc
      · exact le_trans h1 hle'
      · exact h2 c hc
    · rcases h3 with h3 | ⟨c, hc, h3⟩
      · rw [List.foldl_cons, h3, hstep]
        split_ifs with h
        · exact Or.inr ⟨b, List.mem_cons_self _ _, rfl⟩
        · exact Or.inl rfl
      · exact Or.inr ⟨c, List.mem_cons_of_mem _ hc, h3⟩

/-- A fold that keeps the larger of the accumulator and a key ends at the
accumulator or at a key of the list, above both. -/
theorem foldl_max_spec (key : Bounds → ℚ) (get : Bounds → ℚ)
    (hstep : ∀ acc b, get (widen acc b) = if key b > get acc then key b else get acc)
    (Q : List Bounds) (acc : Bounds) :
    get acc ≤ get (Q.foldl widen acc) ∧
    (∀ b ∈ Q, key b ≤ get (Q.foldl widen acc)) ∧
    (get (Q.foldl widen acc) = get acc ∨ ∃ b ∈ Q, get (Q.foldl widen acc) = key b) := by
  induction Q generalizing acc with
  | nil => simp
  | cons b Q ih =>
    obtain ⟨h1, h2, h3⟩ := ih (widen acc b)
    have hle : get acc ≤ get (widen acc b) := by
      rw [hstep]; split_ifs with h
      · exact le_of_lt h
      · exact le_refl _
    have hle' : key b ≤ get (widen acc b) := by
      rw [hstep]; split_ifs with h
      · exact le_refl _
      · exact not_lt.mp h
    refine ⟨le_trans hle h1, ?_, ?_⟩
    · intro c hc
      rcases List.mem_cons.mp hc with rfl | hc
      · exact le_trans hle' h1
      · exact h2 c hc
    · rcases h3 with h3 | ⟨c, hc, h3⟩
      · rw [List.foldl_cons, h3, hstep]
        split_ifs with h
        · exact Or.inr ⟨b, List.mem_cons_self _ _, rfl⟩
        · exact Or.inl rfl
      · exact Or.inr ⟨c, List.mem_cons_of_mem _ hc, h3⟩

/-- Started above every key of a non-empty list, the fold ends at the least key. -/
theorem isMinOf_foldl (key get : Bounds → ℚ)
    (hstep : ∀ acc b, get (widen acc b) = if key b < get acc then key b else get acc)
    (Q : List Bounds) (acc : Bounds) (hne : Q ≠ []) (hlt : ∀ b ∈ Q, key b < get acc) :
    IsMinOf (get (Q.foldl widen acc)) (Q.map key) := by
  obtain ⟨_, h2, h3⟩ := foldl_min_spec key get hstep Q acc
  obtain ⟨b0, hb0⟩ := List.exists_mem_of_ne_nil Q hne
  refine ⟨?_, ?_⟩
  · rcases h3 with h3 | ⟨c, hc, h3⟩
    · exact absurd (h3 ▸ h2 b0 hb0) (not_le.mpr (hlt b0 hb0))
    · exact List.mem_map.mpr ⟨c, hc, h3.symm⟩
  · intro y hy
    obtain ⟨c, hc, rfl⟩ := List.mem_map.mp hy
    exact h2 c hc

/-- Started below every key of a non-empty list, the fold ends at the greatest key. -/
theorem isMaxOf_foldl (key get : Bounds → ℚ)
    (hstep : ∀ acc b, get (widen acc b) = if key b > get acc then key b else get acc)
    (Q : List Bounds) (acc : Bounds) (hne : Q ≠ []) (hlt : ∀ b ∈ Q, get acc < key b) :
    IsMaxOf (get (Q.foldl widen acc)) (Q.map key) := by
  obtain ⟨_, h2, h3⟩ := foldl_max_spec key get hstep Q acc
  obtain ⟨b0, hb0⟩ := List.exists_mem_of_ne_nil Q hne
  refine ⟨?_, ?_⟩
  · rcases h3 with h3 | ⟨c, hc, h3⟩
    · exact absurd (h3 ▸ h2 b0 hb0) (not_le.mpr (hlt b0 hb0))
    · exact List.mem_map.mpr ⟨c, hc, h3.symm⟩
  · intro y hy
    obtain ⟨c, hc, rfl⟩ := List.mem_map.mp hy
    exact h2 c hc

/-- Every visible finite box lies strictly inside the sentinel range. -/
theorem strictlyInside_of_mem_finiteVisibleBoxes (L : ℚ) (Props : List vtkProp) (b : Bounds)
    (hb : b ∈ finiteVisibleBoxes L Props) : strictlyInside L b := by
  unfold finiteVisibleBoxes at hb
  obtain ⟨p, _, hp⟩ := List.mem_filterMap.mp hb
  cases hv : p.Visibility
  · simp [hv] at hp
  · cases hbd : p.Bounds with
    | none => simp [hv, hbd] at hp
    | some c =>
      by_cases hs : strictlyInside L c
      · simp [hv, hbd, hs] at hp
        exact hp ▸ hs
      · simp [hv, hbd, hs] at hp

/-! ## Claims on `ComputeVisiblePropBounds` -/

/-- C4: for a prop list whose visible props have well-formed boxes and in
which at least one visible prop has non-null finite bounds,
`ComputeVisiblePropBounds` returns on each axis the minimum of the mins and the
maximum of the maxes over the visible props with non-null finite bounds; a
second such list with the same visible finite boxes (one obtained by adding,
removing or changing invisible props, props with null bounds or props with
sentinel bounds) gives the same result. -/
theorem ComputeVisiblePropBounds_aggregates (L : ℚ) (Props : List vtkProp)
    (hwf : ∀ p ∈ Props, p.Visibility = true → ∀ b, p.Bounds = some b → wellFormed b)
    (hne : finiteVisibleBoxes L Props ≠ []) :
    IsMinOf (ComputeVisiblePropBounds L Props).b0
      ((finiteVisibleBoxes L Props).map fun b => b.b0) ∧
    IsMaxOf (ComputeVisiblePropBounds L Props).b1
      ((finiteVisibleBoxes L Props).map fun b => b.b1) ∧
    IsMinOf (ComputeVisiblePropBounds L Props).b2
      ((finiteVisibleBoxes L Props).map fun b => b.b2) ∧
    IsMaxOf (ComputeVisiblePropBounds L Props).b3
      ((finiteVisibleBoxes L Props).map fun b => b.b3) ∧
    IsMinOf (ComputeVisiblePropBounds L Props).b4
      ((finiteVisibleBoxes L Props).map fun b => b.b4) ∧
    IsMaxOf (ComputeVisiblePropBounds L Props).b5
      ((finiteVisibleBoxes L Props).map fun b => b.b5) ∧
    ∀ Props' : List vtkProp,
      (∀ p ∈ Props', p.Visibility = true → ∀ b, p.Bounds = some b → wellFormed b) →
      finiteVisibleBoxes L Props' = finiteVisibleBoxes L Props →
      ComputeVisiblePropBounds L Props' = ComputeVisiblePropBounds L Props := by
  have hin := strictlyInside_of_mem_finiteVisibleBoxes L Props
  rw [ComputeVisiblePropBounds_eq_foldl, aggregatedBoxes_eq_finiteVisibleBoxes L Props hwf]
  refine ⟨?_, ?_, ?_, ?_, ?_, ?_, ?_⟩
  · exact isMinOf_foldl (fun b => b.b0) (fun b => b.b0) (fun _ _ => rfl) _ _ hne
      (fun b hb => (hin b hb).1.2)
  · exact isMaxOf_foldl (fun b => b.b1) (fun b => b.b1) (fun _ _ => rfl) _ _ hne
      (fun b hb => (hin b hb).2.1.1)
  · exact isMinOf_foldl (fun b => b.b2) (fun b => b.b2) (fun _ _ => rfl) _ _ hne
      (fun b hb => (hin b hb).2.2.1.2)
  · exact isMaxOf_foldl (fun b => b.b3) (fun b => b.b3) (fun _ _ => rfl) _ _ hne
      (fun b hb => (hin b hb).2.2.2.1.1)
  · exact isMinOf_foldl (fun b => b.b4) (fun b => b.b4) (fun _ _ => rfl) _ _ hne
      (fun b hb => (hin b hb).2.2.2.2.1.2)
  · exact isMaxOf_foldl (fun b => b.b5) (fun b => b.b5) (fun _ _ => rfl) _ _ hne
      (fun b hb => (hin b hb).2.2.2.2.2.1)
  · intro Props' hwf' heq
    rw [ComputeVisiblePropBounds_eq_foldl, aggregatedBoxes_eq_finiteVisibleBoxes L Props' hwf',
      heq]

/-- The visible finite boxes of the two-box list. -/
theorem finiteVisibleBoxes_twoBoxProps :
    finiteVisibleBoxes exampleLarge twoBoxProps =
      [{ b0 := 0, b1 := 1, b2 := 0, b3 := 1, b4 := 0, b5 := 1 },
       { b0 := 2, b1 := 3, b2 := 2, b3 := 3, b4 := 2, b5 := 3 }] := by
  norm_num [finiteVisibleBoxes, twoBoxProps, boxProp, exampleProp, strictlyInside, exampleLarge,
    List.filterMap_cons]

/-- The visible finite boxes of the five-prop list are those of the two-box list. -/
theorem finiteVisibleBoxes_fiveProps :
    finiteVisibleBoxes exampleLarge fiveProps =
      [{ b0 := 0, b1 := 1, b2 := 0, b3 := 1, b4 := 0, b5 := 1 },
       { b0 := 2, b1 := 3, b2 := 2, b3 := 3, b4 := 2, b5 := 3 }] := by
  norm_num [finiteVisibleBoxes, fiveProps, boxProp, exampleProp, strictlyInside, exampleLarge,
    List.filterMap_cons]

/-- Witness for C4: the visible boxes (0,1,0,1,0,1) and (2,3,2,3,2,3) give
(0,3,0,3,0,3), and so does the list that also holds an invisible larger box, a
prop without bounds and a prop with sentinel bounds. -/
theorem ComputeVisiblePropBounds_aggregates_witness :
    finiteVisibleBoxes exampleLarge twoBoxProps ≠ [] ∧
    ComputeVisiblePropBounds exampleLarge twoBoxProps =
      { b0 := 0, b1 := 3, b2 := 0, b3 := 3, b4 := 0, b5 := 3 } ∧
    IsMinOf (ComputeVisiblePropBounds exampleLarge twoBoxProps).b0 [0, 2] ∧
    IsMaxOf (ComputeVisiblePropBounds exampleLarge twoBoxProps).b1 [1, 3] ∧
    ComputeVisiblePropBounds exampleLarge fiveProps =
      ComputeVisiblePropBounds exampleLarge twoBoxProps := by
  have hwf2 : ∀ p ∈ twoBoxProps, p.Visibility = true → ∀ b, p.Bounds = some b →
      wellFormed b := by
    intro p hp _ b hb
    simp only [twoBoxProps, List.mem_cons, List.mem_singleton, List.not_mem_nil, or_false] at hp
    rcases hp with rfl | rfl <;>
      · simp only [boxProp, Option.some.injEq] at hb
        subst hb
        norm_num [wellFormed]
  have hwf5 : ∀ p ∈ fiveProps, p.Visibility = true → ∀ b, p.Bounds = some b →
      wellFormed b := by
    intro p hp _ b hb
    simp only [fiveProps, List.mem_cons, List.mem_singleton, List.not_mem_nil, or_false] at hp
    rcases hp with rfl | rfl | rfl | rfl | rfl
    · simp only [boxProp, Option.some.injEq] at hb
      subst hb
      norm_num [wellFormed]
    · simp only [boxProp, Option.some.injEq] at hb
      subst hb
      norm_num [wellFormed]
    · simp [exampleProp] at hb
    · simp only [boxProp, Option.some.injEq] at hb
      subst hb
      norm_num [wellFormed]
    · simp only [boxProp, Option.some.injEq] at hb
      subst hb
      norm_num [wellFormed, exampleLarge]
  have hne : finiteVisibleBoxes exampleLarge twoBoxProps ≠ [] := by
    rw [finiteVisibleBoxes_twoBoxProps]; simp
  have h := ComputeVisiblePropBounds_aggregates exampleLarge twoBoxProps hwf2 hne
  rw [finiteVisibleBoxes_twoBoxProps] at h
  refine ⟨hne, ?_, by simpa using h.1, by simpa using h.2.1, ?_⟩
  · norm_num [ComputeVisiblePropBounds, boundsLoop, twoBoxProps, boundsStep, boxProp,
      exampleProp, notBogus, widen, exampleLarge]
  · apply (ComputeVisiblePropBounds_aggregates exampleLarge twoBoxProps hwf2 hne).2.2.2.2.2.2
      fiveProps hwf5
    rw [finiteVisibleBoxes_fiveProps, finiteVisibleBoxes_twoBoxProps]

/-! ## Lemmas on the camera functions -/

theorem GetActiveCamera_of_some (e : Externals) (r : vtkRenderer) (cam : vtkCamera)
    (hcam : r.ActiveCamera = some cam) : GetActiveCamera e r = r := by
  rw [GetActiveCamera]
  simp [hcam]

/-- With a camera present `ResetCameraClippingRange(bounds)` only stores the range
computed from the camera and the bounds. -/
theorem ResetCameraClippingRangeBounds_of_some (e : Externals) (r : vtkRenderer)
    (cam : vtkCamera) (bounds : Bounds) (hcam : r.ActiveCamera = some cam) :
    ResetCameraClippingRangeBounds e r bounds =
      { r with ActiveCamera := some (cam.SetClippingRange
          (clippingRange e cam.ViewPlaneNormal cam.Position bounds)) } := by
  rw [ResetCameraClippingRangeBounds]
  simp only [GetActiveCamera_of_some e r cam hcam, hcam]

/-- With a camera present `ResetCamera(bounds)` keeps or repairs the view-up and
stores the focal point, the position, the clipping range and the parallel
scale. -/
theorem ResetCameraBounds_of_some (e : Externals) (r : vtkRenderer)
    (cam : vtkCamera) (bounds : Bounds) (hcam : r.ActiveCamera = some cam) :
    ∃ cam1 cam2 : vtkCamera,
      (cam1 = cam ∨ cam1 = cam.SetViewUp (-cam.ViewUp.v2) cam.ViewUp.v0 cam.ViewUp.v1) ∧
      cam2 =
        { cam1 with
          FocalPoint := boxCenter bounds
          Position :=
            { v0 := (boxCenter bounds).v0 +
                resetDistance e cam.ViewAngle bounds * cam.ViewPlaneNormal.v0
              v1 := (boxCenter bounds).v1 +
                resetDistance e cam.ViewAngle bounds * cam.ViewPlaneNormal.v1
              v2 := (boxCenter bounds).v2 +
                resetDistance e cam.ViewAngle bounds * cam.ViewPlaneNormal.v2 }
          ClippingRange := clippingRange e cam.ViewPlaneNormal
            { v0 := (boxCenter bounds).v0 +
                resetDistance e cam.ViewAngle bounds * cam.ViewPlaneNormal.v0
              v1 := (boxCenter bounds).v1 +
                resetDistance e cam.ViewAngle bounds * cam.ViewPlaneNormal.v1
              v2 := (boxCenter bounds).v2 +
                resetDistance e cam.ViewAngle bounds * cam.ViewPlaneNormal.v2 }
            bounds
          ParallelScale := resetWidth bounds } ∧
      ResetCameraBounds e r bounds = { r with ActiveCamera := some cam2 } := by
  rw [ResetCameraBounds]
  simp only [GetActiveCamera_of_some e r cam hcam, hcam]
  rw [ResetCameraClippingRangeBounds_of_some e _ _ bounds rfl]
  by_cases h : |Dot cam.ViewUp cam.ViewPlaneNormal| > 0.999
  · exact ⟨_, _, Or.inr rfl, rfl, by simp only [h, if_true]; rfl⟩
  · exact ⟨_, _, Or.inl rfl, rfl, by simp only [h, if_false]; rfl⟩

/-- The local `width` is the larger of the x and y extents. -/
theorem resetWidth_eq_max (bounds : Bounds) :
    resetWidth bounds = max (bounds.b1 - bounds.b0) (bounds.b3 - bounds.b2) := by
  unfold resetWidth
  simp only
  split_ifs with h
  · exact (max_eq_left (le_of_lt h)).symm
  · exact (max_eq_right (not_lt.mp h)).symm

/-- The range computed by `ResetCameraClippingRange(bounds)`, in terms of the
distance of the box center and the box diagonal. -/
theorem clippingRange_spec (e : Externals) (cam : vtkCamera) (bounds : Bounds) :
    clippingRange e cam.ViewPlaneNormal cam.Position bounds =
      (max (centerDistance cam bounds - boxDiagonal e bounds / 2) 0.01,
       if centerDistance cam bounds + boxDiagonal e bounds / 2 <
            max (centerDistance cam bounds - boxDiagonal e bounds / 2) 0.01 then
         max (centerDistance cam bounds - boxDiagonal e bounds / 2) 0.01 + 0.1
       else centerDistance cam bounds + boxDiagonal e bounds / 2) := by
  have hd : e.sqrt ((bounds.b0 - bounds.b1) * (bounds.b0 - bounds.b1) +
      (bounds.b2 - bounds.b3) * (bounds.b2 - bounds.b3) +
      (bounds.b4 - bounds.b5) * (bounds.b4 - bounds.b5)) = boxDiagonal e bounds := by
    unfold boxDiagonal
    congr 1
    ring
  have hc : -cam.ViewPlaneNormal.v0 * (bounds.b0 + bounds.b1) / 2 +
      -cam.ViewPlaneNormal.v1 * (bounds.b2 + bounds.b3) / 2 +
      -cam.ViewPlaneNormal.v2 * (bounds.b4 + bounds.b5) / 2 +
      -(-cam.ViewPlaneNormal.v0 * cam.Position.v0 + -cam.ViewPlaneNormal.v1 * cam.Position.v1 +
        -cam.ViewPlaneNormal.v2 * cam.Position.v2) = centerDistance cam bounds := by
    simp only [centerDistance, boxCenter, Dot]
    ring
  have hmax : ∀ x : ℚ, (if x < 0.01 then (0.01 : ℚ) else x) = max x 0.01 := by
    intro x
    split_ifs with h
    · exact (max_eq_right (le_of_lt h)).symm
    · exact (max_eq_left (not_lt.mp h)).symm
  have hhalf : ∀ x : ℚ, 0.5 * x = x / 2 := by
    intro x
    norm_num
    ring
  simp only [clippingRange, hd, hc, hmax, hhalf]

/-! ## Claims on the camera functions -/

/-- C6: for every bounds and every renderer with an active camera of view-plane
normal `vn` and view angle `A`, `ResetCamera(bounds)` leaves the focal point at
the box center, the position at center + distance * vn, and the parallel scale
at width, with width = max(xmax - xmin, ymax - ymin) and
distance = 0.8 * width / tan(A * pi / 360) + (zmax - zmin) / 2. -/
theorem ResetCamera_framing (e : Externals) (r : vtkRenderer) (cam : vtkCamera)
    (bounds : Bounds) (hcam : r.ActiveCamera = some cam) :
    ∃ cam' : vtkCamera, (ResetCameraBounds e r bounds).ActiveCamera = some cam' ∧
      cam'.FocalPoint =
        { v0 := (bounds.b0 + bounds.b1) / 2
          v1 := (bounds.b2 + bounds.b3) / 2
          v2 := (bounds.b4 + bounds.b5) / 2 } ∧
      cam'.Position =
        { v0 := (bounds.b0 + bounds.b1) / 2 +
            (0.8 * max (bounds.b1 - bounds.b0) (bounds.b3 - bounds.b2) /
              e.tan (cam.ViewAngle * e.Pi / 360) + (bounds.b5 - bounds.b4) / 2) *
            cam.ViewPlaneNormal.v0
          v1 := (bounds.b2 + bounds.b3) / 2 +
            (0.8 * max (bounds.b1 - bounds.b0) (bounds.b3 - bounds.b2) /
              e.tan (cam.ViewAngle * e.Pi / 360) + (bounds.b5 - bounds.b4) / 2) *
            cam.ViewPlaneNormal.v1
          v2 := (bounds.b4 + bounds.b5) / 2 +
            (0.8 * max (bounds.b1 - bounds.b0) (bounds.b3 - bounds.b2) /
              e.tan (cam.ViewAngle * e.Pi / 360) + (bounds.b5 - bounds.b4) / 2) *
            cam.ViewPlaneNormal.v2 } ∧
      cam'.ParallelScale = max (bounds.b1 - bounds.b0) (bounds.b3 - bounds.b2) := by
  obtain ⟨cam1, cam2, _, h2, hres⟩ := ResetCameraBounds_of_some e r cam bounds hcam
  refine ⟨cam2, by rw [hres], ?_, ?_, ?_⟩
  · rw [h2]; rfl
  · rw [h2]
    simp only [resetDistance, resetWidth_eq_max, boxCenter]
  · rw [h2]
    exact resetWidth_eq_max bounds

/-- Witness for C6: the cube (-1,1,-1,1,-1,1) and a camera with view angle 30
and view-plane normal (0,0,1): the camera ends at distance
0.8 * 2 / tan(30 * pi / 360) + 1 from the origin along the z axis, focused on
the origin, with parallel scale 2. -/
theorem ResetCamera_framing_witness :
    cameraRenderer.ActiveCamera = some exampleCamera ∧
    ∃ cam' : vtkCamera,
      (ResetCameraBounds exampleExternals cameraRenderer unitCube).ActiveCamera = some cam' ∧
      cam'.FocalPoint = { v0 := 0, v1 := 0, v2 := 0 } ∧
      cam'.Position =
        { v0 := 0, v1 := 0
          v2 := 0.8 * 2 / exampleExternals.tan (30 * exampleExternals.Pi / 360) + 1 } ∧
      cam'.ParallelScale = 2 := by
  refine ⟨rfl, ?_⟩
  obtain ⟨cam', h1, h2, h3, h4⟩ :=
    ResetCamera_framing exampleExternals cameraRenderer exampleCamera unitCube rfl
  refine ⟨cam', h1, ?_, ?_, ?_⟩
  · rw [h2]; norm_num [unitCube]
  · rw [h3]; norm_num [unitCube, exampleCamera]
  · rw [h4]; norm_num [unitCube]

/-- The diagonal of the small flat box is 1/20. -/
theorem boxDiagonal_tinyBox : boxDiagonal exampleExternals tinyBox = 1 / 20 := by
  have h : boxDiagonal exampleExternals tinyBox = Rat.sqrt ((1 / 20) * (1 / 20)) := by
    simp only [boxDiagonal, exampleExternals, tinyBox]
    congr 1
    norm_num
  rw [h, Rat.sqrt_eq]
  norm_num [abs_of_pos]

/-- The diagonal of the 2 by 1 by 2 box is 3. -/
theorem boxDiagonal_diagonalThreeBox :
    boxDiagonal exampleExternals diagonalThreeBox = 3 := by
  have h : boxDiagonal exampleExternals diagonalThreeBox = Rat.sqrt (3 * 3) := by
    simp only [boxDiagonal, exampleExternals, diagonalThreeBox]
    congr 1
    norm_num
  rw [h, Rat.sqrt_eq]
  norm_num [abs_of_pos]

/-- C7, as stated, fails: for the camera at (0,0,1) looking down the z axis
and a box 0.03 by 0.04 in the plane z = 0 (diagonal 0.05, center at distance
1), the range set is [0.975, 1.025]: the far plane is 0.05 beyond the near
plane, not 0.1. -/
theorem ResetCameraClippingRange_separation_counterexample :
    ∃ cam' : vtkCamera,
      (ResetCameraClippingRangeBounds exampleExternals cameraRenderer tinyBox).ActiveCamera =
        some cam' ∧
      cam'.ClippingRange = (39 / 40, 41 / 40) ∧
      ¬ (cam'.ClippingRange.2 ≥ cam'.ClippingRange.1 + 0.1) := by
  have h : clippingRange exampleExternals exampleCamera.ViewPlaneNormal exampleCamera.Position
      tinyBox = (39 / 40, 41 / 40) := by
    rw [clippingRange_spec, boxDiagonal_tinyBox]
    norm_num [centerDistance, boxCenter, Dot, exampleCamera, tinyBox]
  refine ⟨exampleCamera.SetClippingRange (39 / 40, 41 / 40), ?_, rfl, ?_⟩
  · rw [ResetCameraClippingRangeBounds_of_some exampleExternals cameraRenderer exampleCamera
      tinyBox rfl, h]
  · norm_num [vtkCamera.SetClippingRange]

/-- C7, amended: for every bounds and every renderer with an active camera, the
range `[near, far]` that `ResetCameraClippingRange(bounds)` sets satisfies
far >= near; far = near + 0.1 when centerDistance + diag/2 lies below near, and
far = centerDistance + diag/2 otherwise. -/
theorem ResetCameraClippingRange_separation (e : Externals) (r : vtkRenderer)
    (cam : vtkCamera) (bounds : Bounds) (hcam : r.ActiveCamera = some cam) :
    ∃ cam' : vtkCamera,
      (ResetCameraClippingRangeBounds e r bounds).ActiveCamera = some cam' ∧
      cam'.ClippingRange.1 ≤ cam'.ClippingRange.2 ∧
      (centerDistance cam bounds + boxDiagonal e bounds / 2 < cam'.ClippingRange.1 →
        cam'.ClippingRange.2 = cam'.ClippingRange.1 + 0.1) ∧
      (cam'.ClippingRange.1 ≤ centerDistance cam bounds + boxDiagonal e bounds / 2 →
        cam'.ClippingRange.2 = centerDistance cam bounds + boxDiagonal e bounds / 2) := by
  refine ⟨_, by rw [ResetCameraClippingRangeBounds_of_some e r cam bounds hcam], ?_, ?_, ?_⟩
  · simp only [vtkCamera.SetClippingRange, clippingRange_spec]
    split_ifs with h
    · norm_num
    · exact not_lt.mp h
  · intro h
    simp only [vtkCamera.SetClippingRange, clippingRange_spec] at h ⊢
    rw [if_pos h]
  · intro h
    simp only [vtkCamera.SetClippingRange, clippingRange_spec] at h ⊢
    rw [if_neg (not_lt.mpr h)]

/-- Witness for C7 amended: the small box of the counterexample, range
[0.975, 1.025]. -/
theorem ResetCameraClippingRange_separation_witness :
    cameraRenderer.ActiveCamera = some exampleCamera ∧
    ∃ cam' : vtkCamera,
      (ResetCameraClippingRangeBounds exampleExternals cameraRenderer tinyBox).ActiveCamera =
        some cam' ∧
      cam'.ClippingRange.1 ≤ cam'.ClippingRange.2 := by
  obtain ⟨cam', h1, h2, _⟩ :=
    ResetCameraClippingRange_separation exampleExternals cameraRenderer exampleCamera tinyBox rfl
  exact ⟨rfl, cam', h1, h2⟩

/-- C8: for every bounds and every renderer with an active camera, with a
square root that is never negative, `ResetCameraClippingRange(bounds)` sets
near = max(centerDistance - diag/2, 0.01), so near >= 0.01; and whenever
centerDistance - diag/2 >= 0.01 the range set is
[centerDistance - diag/2, centerDistance + diag/2]. -/
theorem ResetCameraClippingRange_near (e : Externals) (r : vtkRenderer)
    (cam : vtkCamera) (bounds : Bounds) (hcam : r.ActiveCamera = some cam)
    (hsqrt : ∀ x : ℚ, 0 ≤ e.sqrt x) :
    ∃ cam' : vtkCamera,
      (ResetCameraClippingRangeBounds e r bounds).ActiveCamera = some cam' ∧
      cam'.ClippingRange.1 = max (centerDistance cam bounds - boxDiagonal e bounds / 2) 0.01 ∧
      0.01 ≤ cam'.ClippingRange.1 ∧
      (0.01 ≤ centerDistance cam bounds - boxDiagonal e bounds / 2 →
        cam'.ClippingRange =
          (centerDistance cam bounds - boxDiagonal e bounds / 2,
           centerDistance cam bounds + boxDiagonal e bounds / 2)) := by
  refine ⟨_, by rw [ResetCameraClippingRangeBounds_of_some e r cam bounds hcam], ?_, ?_, ?_⟩
  · simp only [vtkCamera.SetClippingRange, clippingRange_spec]
  · simp only [vtkCamera.SetClippingRange, clippingRange_spec]
    exact le_max_right _ _
  · intro h
    have hd : 0 ≤ boxDiagonal e bounds := hsqrt _
    simp only [vtkCamera.SetClippingRange, clippingRange_spec, max_eq_left h]
    rw [if_neg]
    rw [not_lt]
    linarith

/-- Witness for C8: a box with diagonal 3 whose center is at distance 3 from
the camera; the range set is [1.5, 4.5]. -/
theorem ResetCameraClippingRange_near_witness :
    (∀ x : ℚ, 0 ≤ exampleExternals.sqrt x) ∧
    ∃ cam' : vtkCamera,
      (ResetCameraClippingRangeBounds exampleExternals farCameraRenderer
        diagonalThreeBox).ActiveCamera = some cam' ∧
      cam'.ClippingRange = (3 / 2, 9 / 2) := by
  have hsqrt : ∀ x : ℚ, 0 ≤ exampleExternals.sqrt x := fun x => Rat.sqrt_nonneg x
  obtain ⟨cam', h1, _, _, h4⟩ :=
    ResetCameraClippingRange_near exampleExternals farCameraRenderer
      { exampleCamera with Position := { v0 := 1, v1 := 1 / 2, v2 := 4 } }
      diagonalThreeBox rfl hsqrt
  refine ⟨hsqrt, cam', h1, ?_⟩
  rw [boxDiagonal_diagonalThreeBox] at h4
  have hc : centerDistance { exampleCamera with Position := { v0 := 1, v1 := 1 / 2, v2 := 4 } }
      diagonalThreeBox = 3 := by
    norm_num [centerDistance, boxCenter, Dot, exampleCamera, diagonalThreeBox]
  rw [hc] at h4
  rw [h4 (by norm_num)]
  norm_num

/-! ## Lemmas on `Render` -/

theorem foldl_lightStep (RenderTime : Nat) (Lights : List vtkLight) (mods : Bool) :
    Lights.foldl (lightStep RenderTime) mods = true ↔
      mods = true ∨ ∃ l ∈ Lights, l.Switch = true ∧ RenderTime < l.MTime := by
  induction Lights generalizing mods with
  | nil => simp
  | cons l Lights ih =>
    rw [List.foldl_cons, ih]
    unfold lightStep
    by_cases h : l.Switch = true ∧ RenderTime < l.MTime
    · have hc : (l.Switch && decide (l.MTime > RenderTime)) = true := by
        simp [h.1, h.2]
      simp only [hc, if_true, true_or, true_iff]
      exact Or.inr ⟨l, List.mem_cons_self _ _, h⟩
    · have hc : (l.Switch && decide (l.MTime > RenderTime)) = false := by
        simp only [Bool.and_eq_false_iff, decide_eq_false_iff_not, gt_iff_lt]
        by_cases hs : l.Switch = true
        · exact Or.inr (fun hlt => h ⟨hs, hlt⟩)
        · exact Or.inl (by simpa using hs)
      simp only [hc, Bool.false_eq_true, if_false, List.mem_cons, exists_eq_or_imp, h, false_or]

/-- The scan over the props sets `mods` exactly when a visible prop was redrawn
after the last render. -/
theorem foldl_propStep (RenderTime : Nat) (Props : List vtkProp) (mods : Bool) :
    Props.foldl (propStep RenderTime) mods = true ↔
      mods = true ∨ ∃ p ∈ Props, p.Visibility = true ∧ RenderTime < p.RedrawMTime := by
  induction Props generalizing mods with
  | nil => simp
  | cons p Props ih =>
    rw [List.foldl_cons, ih]
    unfold propStep
    by_cases hv : p.Visibility = true
    · by_cases ht : RenderTime < p.RedrawMTime
      · have : p.RedrawMTime > RenderTime := ht
        simp only [hv, if_true, this, true_or, true_iff]
        exact Or.inr ⟨p, List.mem_cons_self _ _, hv, ht⟩
      · have : ¬ p.RedrawMTime > RenderTime := ht
        simp only [hv, if_true, this, if_false, List.mem_cons, exists_eq_or_imp, ht, and_false,
          false_or]
    · simp only [hv, Bool.false_eq_true, if_false, List.mem_cons, exists_eq_or_imp, false_and,
        false_or]

/-- The two scans find a modification exactly when an enabled light or a visible
prop is newer than the last render. -/
theorem scanMods_eq_true_iff (r : vtkRenderer) :
    scanMods r = true ↔ enabledLightNewer r ∨ visiblePropNewer r := by
  unfold scanMods enabledLightNewer visiblePropNewer
  rw [foldl_propStep, foldl_lightStep]
  simp

/-- The calls of `renderScene`: time allocation, one device render, and the
read-back of the pixels when the backing store is on and a window is bound. -/
theorem renderScene_calls (DeviceRender : vtkRenderer → vtkRenderer) (t1 t2 : ℚ)
    (r : vtkRenderer) (trace : List Event) :
    ∃ rest : List Event,
      (renderScene DeviceRender t1 t2 r trace).1 =
        trace ++ [Event.AllocateTime, Event.DeviceRender] ++ rest ∧
      (rest = [] ∨ ∃ a b c d, rest = [Event.GetPixelData a b c d]) := by
  unfold renderScene
  simp only
  split_ifs with h
  · split
    · exact ⟨[], by simp, Or.inl rfl⟩
    · exact ⟨_, rfl, Or.inr ⟨_, _, _, _, rfl⟩⟩
  · exact ⟨[], by simp, Or.inl rfl⟩

/-- The start callback is neither a device render, nor a time allocation, nor a
blit. -/
theorem startTrace_clean (r : vtkRenderer) :
    (if r.StartRenderMethod then [Event.StartRenderMethod] else []).count
        Event.DeviceRender = 0 ∧
    (if r.StartRenderMethod then [Event.StartRenderMethod] else []).count
        Event.AllocateTime = 0 ∧
    ∀ a b c d image, Event.SetPixelData a b c d image ∉
      (if r.StartRenderMethod then [Event.StartRenderMethod] else []) := by
  cases r.StartRenderMethod <;> simp

/-- The full path: one time allocation, one device render, no blit. -/
theorem renderScene_full (DeviceRender : vtkRenderer → vtkRenderer) (t1 t2 : ℚ)
    (r : vtkRenderer) :
    let calls := (renderScene DeviceRender t1 t2 r
      (if r.StartRenderMethod then [Event.StartRenderMethod] else [])).1
    calls.count Event.DeviceRender = 1 ∧ calls.count Event.AllocateTime = 1 ∧
    ∀ a b c d image, Event.SetPixelData a b c d image ∉ calls := by
  intro calls
  obtain ⟨rest, hcalls, hrest⟩ := renderScene_calls DeviceRender t1 t2 r
    (if r.StartRenderMethod then [Event.StartRenderMethod] else [])
  obtain ⟨h1, h2, h3⟩ := startTrace_clean r
  have hc : calls = (if r.StartRenderMethod then [Event.StartRenderMethod] else []) ++
      [Event.AllocateTime, Event.DeviceRender] ++ rest := hcalls
  rw [hc]
  rcases hrest with rfl | ⟨a, b, c, d, rfl⟩
  · refine ⟨?_, ?_, ?_⟩
    · simp [List.count_append, h1, List.count_cons]
    · simp [List.count_append, h2, List.count_cons]
    · intro a b c d image
      simp [h3]
  · refine ⟨?_, ?_, ?_⟩
    · simp [List.count_append, h1, List.count_cons]
    · simp [List.count_append, h2, List.count_cons]
    · intro a' b' c' d' image
      simp [h3]

/-- The cache path: with the backing store on, a cached image, the renderer,
the camera and the window older than the last render and the scans finding
nothing newer, `Render` blits the cached image and returns. -/
theorem Render_cached (DeviceRender : vtkRenderer → vtkRenderer) (t1 t2 : ℚ)
    (r : vtkRenderer) (cam : vtkCamera) (win : vtkRenderWindow) (image : Image)
    (hbs : r.BackingStore = true) (himg : r.BackingImage = some image)
    (hcam : r.ActiveCamera = some cam) (hwin : r.RenderWindow = some win)
    (hm : r.MTime < r.RenderTime) (hc : cam.MTime < r.RenderTime)
    (hw : win.MTime < r.RenderTime) (hmods : scanMods r = false) :
    Render DeviceRender t1 t2 r =
      ((if r.StartRenderMethod then [Event.StartRenderMethod] else []) ++
        [Event.SetPixelData (pixelRange r.Viewport win.Size).1
          (pixelRange r.Viewport win.Size).2.1 (pixelRange r.Viewport win.Size).2.2.1
          (pixelRange r.Viewport win.Size).2.2.2 image] ++
        (if r.EndRenderMethod then [Event.EndRenderMethod] else []), some r) := by
  have htest : backingStoreTest r = some true := by
    simp [backingStoreTest, hbs, himg, hcam, hwin, hm, hc, hw]
  unfold Render
  simp only [htest, hmods, hwin, himg]
  cases r.EndRenderMethod <;> simp

/-! ## Claims on `Render` -/

/-- C2, as stated, fails: backing store on, a cached image, last render at
time 5, no lights and no props; when the renderer's own modification time, or
the camera's, or the window's, equals 5 (so none exceeds it), `Render` still
takes the full path and invokes `DeviceRender`. -/
theorem Render_cache_counterexample :
    (nothingExceeds (cachedRenderer 5 3 3 [] []) ∧
      Event.DeviceRender ∈ (Render id 0 1 (cachedRenderer 5 3 3 [] [])).1) ∧
    (nothingExceeds (cachedRenderer 3 5 3 [] []) ∧
      Event.DeviceRender ∈ (Render id 0 1 (cachedRenderer 3 5 3 [] [])).1) ∧
    (nothingExceeds (cachedRenderer 3 3 5 [] []) ∧
      Event.DeviceRender ∈ (Render id 0 1 (cachedRenderer 3 3 5 [] [])).1) := by
  have hfull : ∀ r : vtkRenderer, backingStoreTest r = some false →
      Event.DeviceRender ∈ (Render id 0 1 r).1 := by
    intro r h
    have hR : Render id 0 1 r = renderScene id 0 1 r
        (if r.StartRenderMethod then [Event.StartRenderMethod] else []) := by
      unfold Render
      simp only [h]
    rw [hR]
    exact List.count_pos_iff.mp (by rw [(renderScene_full id 0 1 r).1]; decide)
  have hprem : ∀ m c w : Nat, m ≤ 5 → c ≤ 5 → w ≤ 5 →
      nothingExceeds (cachedRenderer m c w [] []) := by
    intro m c w hm hc hw
    refine ⟨rfl, by simp [cachedRenderer], ?_, ⟨_, rfl, ?_⟩, ⟨_, rfl, ?_⟩, ?_, ?_⟩
    · simpa [cachedRenderer] using hm
    · simpa [cachedRenderer] using hc
    · simpa [cachedRenderer, exampleWindow] using hw
    · rintro ⟨l, hl, _⟩
      simp [cachedRenderer] at hl
    · rintro ⟨p, hp, _⟩
      simp [cachedRenderer] at hp
  refine ⟨⟨hprem 5 3 3 (by decide) (by decide) (by decide), hfull _ ?_⟩,
    ⟨hprem 3 5 3 (by decide) (by decide) (by decide), hfull _ ?_⟩,
    ⟨hprem 3 3 5 (by decide) (by decide) (by decide), hfull _ ?_⟩⟩ <;>
    simp [backingStoreTest, cachedRenderer, exampleRenderer, exampleCamera, exampleWindow]

/-- C2, amended: in every renderer state in which backing store is enabled, a
cached `BackingImage` exists, the renderer's own modification time, the
active camera's and the window's are strictly less than the last render
timestamp, and no enabled light's modification time and no visible prop's
redraw time is strictly greater than it, `Render` invokes neither
`DeviceRender` nor `AllocateTime`, writes exactly the cached image to the
window with `SetPixelData` (between the start and end callbacks, when set),
and leaves the renderer unchanged. -/
theorem Render_cache_hit (DeviceRender : vtkRenderer → vtkRenderer) (t1 t2 : ℚ)
    (r : vtkRenderer) (cam : vtkCamera) (win : vtkRenderWindow) (image : Image)
    (hbs : r.BackingStore = true) (himg : r.BackingImage = some image)
    (hcam : r.ActiveCamera = some cam) (hwin : r.RenderWindow = some win)
    (hm : r.MTime < r.RenderTime) (hc : cam.MTime < r.RenderTime)
    (hw : win.MTime < r.RenderTime)
    (hl : ∀ l ∈ r.Lights, l.Switch = true → ¬ r.RenderTime < l.MTime)
    (hp : ∀ p ∈ r.Props, p.Visibility = true → ¬ r.RenderTime < p.RedrawMTime) :
    Render DeviceRender t1 t2 r =
      ((if r.StartRenderMethod then [Event.StartRenderMethod] else []) ++
        [Event.SetPixelData (pixelRange r.Viewport win.Size).1
          (pixelRange r.Viewport win.Size).2.1 (pixelRange r.Viewport win.Size).2.2.1
          (pixelRange r.Viewport win.Size).2.2.2 image] ++
        (if r.EndRenderMethod then [Event.EndRenderMethod] else []), some r) ∧
    Event.DeviceRender ∉ (Render DeviceRender t1 t2 r).1 ∧
    Event.AllocateTime ∉ (Render DeviceRender t1 t2 r).1 := by
  have hmods : scanMods r = false := by
    cases h : scanMods r
    · rfl
    · rcases (scanMods_eq_true_iff r).mp h with ⟨l, hl1, hl2, hl3⟩ | ⟨p, hp1, hp2, hp3⟩
      · exact absurd hl3 (hl l hl1 hl2)
      · exact absurd hp3 (hp p hp1 hp2)
  have hR := Render_cached DeviceRender t1 t2 r cam win image hbs himg hcam hwin hm hc hw hmods
  refine ⟨hR, ?_, ?_⟩ <;>
    · rw [hR]
      cases r.StartRenderMethod <;> cases r.EndRenderMethod <;> simp

/-- Witness for C2 amended: renderer, camera and window modified at time 3,
last render at time 5, with an invisible prop and a switched-off light both
modified at time 9: the cached image `[7, 7, 7]` is written to the pixel range
(0, 0, 299, 299) and nothing else is called. -/
theorem Render_cache_hit_witness :
    Render id 0 1 (cachedRenderer 3 3 3 [{ Switch := false, MTime := 9 }]
        [{ exampleProp 1 with Visibility := false, RedrawMTime := 9 }]) =
      ([Event.SetPixelData 0 0 299 299 [7, 7, 7]],
        some (cachedRenderer 3 3 3 [{ Switch := false, MTime := 9 }]
          [{ exampleProp 1 with Visibility := false, RedrawMTime := 9 }])) := by
  have h := (Render_cache_hit id 0 1
    (cachedRenderer 3 3 3 [{ Switch := false, MTime := 9 }]
      [{ exampleProp 1 with Visibility := false, RedrawMTime := 9 }])
    { exampleCamera with MTime := 3 } (exampleWindow 3) [7, 7, 7] rfl rfl rfl rfl
    (by decide) (by decide) (by decide)
    (by simp [cachedRenderer]) (by simp [cachedRenderer, exampleProp])).1
  rw [h]
  norm_num [cachedRenderer, exampleRenderer, exampleWindow, pixelRange, truncToInt]

/-! ## Claims on `GetMTime` and `UnRegister` -/

/-- The guarded assignment `mTime = (time > mTime ? time : mTime)` takes the
larger of the two. -/
theorem ite_gt_eq_max (mTime time : Nat) :
    (if time > mTime then time else mTime) = max mTime time := by
  split_ifs <;> omega

/-- C12: `GetMTime()` returns the maximum of the base viewport's timestamp and
the timestamps of those of `RayCaster`, `ActiveCamera` and `CreatedLight` that
are non-null: it is one of these timestamps and is at least each of them; an
absent collaborator leaves the running maximum as it is. -/
theorem GetMTime_max (r : vtkRenderer) :
    GetMTime r ∈ presentTimes r ∧ (∀ t ∈ presentTimes r, t ≤ GetMTime r) ∧
    GetMTime r =
      max (max (max r.MTime ((r.RayCaster.map fun c => c.MTime).getD r.MTime))
        ((r.ActiveCamera.map fun c => c.MTime).getD r.MTime))
        ((r.CreatedLight.map fun c => c.MTime).getD r.MTime) := by
  have hmax : GetMTime r =
      max (max (max r.MTime ((r.RayCaster.map fun c => c.MTime).getD r.MTime))
        ((r.ActiveCamera.map fun c => c.MTime).getD r.MTime))
        ((r.CreatedLight.map fun c => c.MTime).getD r.MTime) := by
    unfold GetMTime
    cases r.RayCaster <;> cases r.ActiveCamera <;> cases r.CreatedLight <;>
      simp only [ite_gt_eq_max, Option.map, Option.getD] <;> omega
  refine ⟨?_, ?_, hmax⟩
  · rw [hmax]
    unfold presentTimes
    cases r.RayCaster <;> cases r.ActiveCamera <;> cases r.CreatedLight <;>
      simp <;> omega
  · rw [hmax]
    unfold presentTimes
    cases r.RayCaster <;> cases r.ActiveCamera <;> cases r.CreatedLight <;>
      simp

/-- The `if` block of `UnRegister` releases the ray caster under the cycle
condition and does nothing otherwise. -/
theorem releaseRayCaster_spec (x : RefExternals) (r : vtkRenderer) :
    (∀ rc, r.RayCaster = some rc → rc.Renderer = some r.Id → r.ReferenceCount = 2 →
      releaseRayCaster x r =
        (x.RayCasterDelete rc { r with RayCaster := none }, [RefEvent.RayCasterDelete rc])) ∧
    (¬ cycleOnly r → releaseRayCaster x r = (r, [])) := by
  constructor
  · intro rc h1 h2 h3
    simp [releaseRayCaster, h1, h2, h3]
  · intro h
    unfold releaseRayCaster
    cases hrc : r.RayCaster with
    | none => rfl
    | some rc =>
      have hc : ¬ (rc.Renderer = some r.Id ∧ r.ReferenceCount = 2) :=
        fun hc => h ⟨rc, hrc, hc.1, hc.2⟩
      simp only [hc, if_false]

/-- C13: `UnRegister` releases the ray caster (the `RayCaster` member is null
when `Delete()` is called on the ray caster) before the standard deref exactly
when the ray caster is non-null, points back at this renderer and the
reference count is 2; in every other state the renderer, and with it the
`RayCaster` member, reaches the standard deref unchanged; in both cases the
standard deref is the last call and is made exactly once. -/
theorem UnRegister_cycle_break (x : RefExternals) (r : vtkRenderer) :
    (∀ rc, r.RayCaster = some rc → rc.Renderer = some r.Id → r.ReferenceCount = 2 →
      UnRegister x r =
        (x.ObjectUnRegister (x.RayCasterDelete rc { r with RayCaster := none }),
          [RefEvent.RayCasterDelete rc, RefEvent.ObjectUnRegister])) ∧
    (¬ cycleOnly r →
      (releaseRayCaster x r).1.RayCaster = r.RayCaster ∧
      UnRegister x r = (x.ObjectUnRegister r, [RefEvent.ObjectUnRegister])) ∧
    ((∃ rc, RefEvent.RayCasterDelete rc ∈ (UnRegister x r).2) ↔ cycleOnly r) ∧
    (UnRegister x r).2.count RefEvent.ObjectUnRegister = 1 ∧
    (UnRegister x r).2.getLast? = some RefEvent.ObjectUnRegister := by
  obtain ⟨hyes, hno⟩ := releaseRayCaster_spec x r
  have h1 : ∀ rc, r.RayCaster = some rc → rc.Renderer = some r.Id → r.ReferenceCount = 2 →
      UnRegister x r =
        (x.ObjectUnRegister (x.RayCasterDelete rc { r with RayCaster := none }),
          [RefEvent.RayCasterDelete rc, RefEvent.ObjectUnRegister]) := by
    intro rc ha hb hc
    simp [UnRegister, hyes rc ha hb hc]
  have h2 : ¬ cycleOnly r →
      UnRegister x r = (x.ObjectUnRegister r, [RefEvent.ObjectUnRegister]) := by
    intro h
    simp [UnRegister, hno h]
  refine ⟨h1, fun h => ⟨by rw [hno h], h2 h⟩, ?_, ?_, ?_⟩
  · constructor
    · rintro ⟨rc, hmem⟩
      by_contra hc
      rw [h2 hc] at hmem
      simp at hmem
    · rintro ⟨rc, ha, hb, hc⟩
      exact ⟨rc, by rw [h1 rc ha hb hc]; simp⟩
  · by_cases hc : cycleOnly r
    · obtain ⟨rc, ha, hb, hc⟩ := hc
      rw [h1 rc ha hb hc]
      simp [List.count_cons]
    · rw [h2 hc]
      simp
  · by_cases hc : cycleOnly r
    · obtain ⟨rc, ha, hb, hc⟩ := hc
      rw [h1 rc ha hb hc]
      rfl
    · rw [h2 hc]
      rfl

/-- Witness for C13: the renderer as constructed (reference count 2, ray
caster pointing back at it) releases the ray caster and ends with reference
count 0; with a third reference it keeps the ray caster and ends with 2. -/
theorem UnRegister_cycle_break_witness :
    UnRegister countingExternals exampleRenderer =
      ({ exampleRenderer with RayCaster := none, ReferenceCount := 0 },
        [RefEvent.RayCasterDelete { Renderer := some 1, MTime := 1 },
          RefEvent.ObjectUnRegister]) ∧
    UnRegister countingExternals { exampleRenderer with ReferenceCount := 3 } =
      ({ exampleRenderer with ReferenceCount := 2 }, [RefEvent.ObjectUnRegister]) := by
  constructor
  · rw [(UnRegister_cycle_break countingExternals exampleRenderer).1
      { Renderer := some 1, MTime := 1 } rfl rfl rfl]
    rfl
  · rw [((UnRegister_cycle_break countingExternals
      { exampleRenderer with ReferenceCount := 3 }).2.1 ?_).2]
    · rfl
    · rintro ⟨rc, _, _, h⟩
      exact absurd h (by decide)

/-! ## Lemmas on the no-argument reset operations -/

/-- A box that passes the test of the loop belongs to a visible prop and
satisfies `notBogus`. -/
theorem mem_aggregatedBoxes (L : ℚ) (Props : List vtkProp) (b : Bounds)
    (hb : b ∈ aggregatedBoxes L Props) :
    ∃ p ∈ Props, p.Visibility = true ∧ p.Bounds = some b ∧ notBogus L b = true := by
  unfold aggregatedBoxes at hb
  obtain ⟨p, hp, hpb⟩ := List.mem_filterMap.mp hb
  refine ⟨p, hp, ?_⟩
  cases hv : p.Visibility
  · simp [hv] at hpb
  · cases hbd : p.Bounds with
    | none => simp [hv, hbd] at hpb
    | some c =>
      cases hn : notBogus L c
      · simp [hv, hbd, hn] at hpb
      · simp [hv, hbd, hn] at hpb
        exact ⟨rfl, by rw [hpb], by rw [← hpb]; exact hn⟩

/-- With no box passing the test, the sentinel box is returned. -/
theorem ComputeVisiblePropBounds_of_nil (L : ℚ) (Props : List vtkProp)
    (h : aggregatedBoxes L Props = []) :
    ComputeVisiblePropBounds L Props = sentinelBox L := by
  rw [ComputeVisiblePropBounds_eq_foldl, h]
  rfl

/-- The no-argument operations return at once when the first component of the
box is the sentinel, and pass the box on otherwise. -/
theorem ResetCamera_cases (e : Externals) (r : vtkRenderer) :
    ((ComputeVisiblePropBounds e.VTK_LARGE_FLOAT r.Props).b0 = e.VTK_LARGE_FLOAT →
      ResetCamera e r = r ∧ ResetCameraClippingRange e r = r) ∧
    ((ComputeVisiblePropBounds e.VTK_LARGE_FLOAT r.Props).b0 ≠ e.VTK_LARGE_FLOAT →
      ResetCamera e r =
        ResetCameraBounds e r (ComputeVisiblePropBounds e.VTK_LARGE_FLOAT r.Props) ∧
      ResetCameraClippingRange e r =
        ResetCameraClippingRangeBounds e r
          (ComputeVisiblePropBounds e.VTK_LARGE_FLOAT r.Props)) := by
  constructor
  · intro h
    constructor
    · rw [ResetCamera]
      simp only [h, if_true]
    · unfold ResetCameraClippingRange
      simp only [h, if_true]
  · intro h
    constructor
    · rw [ResetCamera]
      simp only [h, if_false]
    · unfold ResetCameraClippingRange
      simp only [h, if_false]

/-! ## Claims on the no-argument reset operations -/

/-- C15, as stated, fails: a visible prop whose bounds are the inverted
sentinel box passes the test of the loop (the flag `nothingVisible` is
cleared), yet the first component of the box returned is still
`VTK_LARGE_FLOAT`, and `ResetCamera()` returns without resetting. -/
theorem ComputeVisiblePropBounds_empty_test_counterexample :
    aggregatedBoxes exampleLarge invertedSentinelProps ≠ [] ∧
    (boundsLoop exampleLarge invertedSentinelProps).2 = false ∧
    (ComputeVisiblePropBounds exampleLarge invertedSentinelProps).b0 = exampleLarge ∧
    ResetCamera exampleExternals (propsRenderer invertedSentinelProps) =
      propsRenderer invertedSentinelProps := by
  have hagg : aggregatedBoxes exampleLarge invertedSentinelProps =
      [{ b0 := exampleLarge, b1 := -exampleLarge, b2 := exampleLarge, b3 := -exampleLarge,
         b4 := exampleLarge, b5 := -exampleLarge }] := by
    norm_num [aggregatedBoxes, invertedSentinelProps, boxProp, exampleProp, notBogus,
      exampleLarge, List.filterMap_cons]
  have hb0 : (ComputeVisiblePropBounds exampleLarge invertedSentinelProps).b0 =
      exampleLarge := by
    rw [ComputeVisiblePropBounds_eq_foldl, hagg]
    norm_num [widen, exampleLarge]
  refine ⟨by rw [hagg]; simp, ?_, hb0, ?_⟩
  · simp [boundsLoop, foldl_boundsStep, hagg]
  · exact ((ResetCamera_cases exampleExternals (propsRenderer invertedSentinelProps)).1 hb0).1

/-- C15, amended: the first component of the box returned by
`ComputeVisiblePropBounds` equals `VTK_LARGE_FLOAT` whenever no prop passed the
visibility-and-finite-bounds test; when every visible prop with bounds has
xmin <= xmax the converse holds too, so the first component equals
`VTK_LARGE_FLOAT` if and only if no prop passed. The no-argument `ResetCamera()`
and `ResetCameraClippingRange()` return without effect exactly when that
component is `VTK_LARGE_FLOAT` and otherwise pass the box to their
bounds-taking versions; the local flag `nothingVisible` stays set exactly when
no prop passed. -/
theorem ComputeVisiblePropBounds_empty_test (e : Externals) (r : vtkRenderer) :
    (aggregatedBoxes e.VTK_LARGE_FLOAT r.Props = [] →
      (ComputeVisiblePropBounds e.VTK_LARGE_FLOAT r.Props).b0 = e.VTK_LARGE_FLOAT) ∧
    ((∀ p ∈ r.Props, p.Visibility = true → ∀ b, p.Bounds = some b → b.b0 ≤ b.b1) →
      ((ComputeVisiblePropBounds e.VTK_LARGE_FLOAT r.Props).b0 = e.VTK_LARGE_FLOAT ↔
        aggregatedBoxes e.VTK_LARGE_FLOAT r.Props = [])) ∧
    ((ComputeVisiblePropBounds e.VTK_LARGE_FLOAT r.Props).b0 = e.VTK_LARGE_FLOAT →
      ResetCamera e r = r ∧ ResetCameraClippingRange e r = r) ∧
    ((ComputeVisiblePropBounds e.VTK_LARGE_FLOAT r.Props).b0 ≠ e.VTK_LARGE_FLOAT →
      ResetCamera e r =
        ResetCameraBounds e r (ComputeVisiblePropBounds e.VTK_LARGE_FLOAT r.Props) ∧
      ResetCameraClippingRange e r =
        ResetCameraClippingRangeBounds e r
          (ComputeVisiblePropBounds e.VTK_LARGE_FLOAT r.Props)) ∧
    ((boundsLoop e.VTK_LARGE_FLOAT r.Props).2 = true ↔
      aggregatedBoxes e.VTK_LARGE_FLOAT r.Props = []) := by
  have hnil : aggregatedBoxes e.VTK_LARGE_FLOAT r.Props = [] →
      (ComputeVisiblePropBounds e.VTK_LARGE_FLOAT r.Props).b0 = e.VTK_LARGE_FLOAT := by
    intro h
    rw [ComputeVisiblePropBounds_of_nil _ _ h]
    rfl
  refine ⟨hnil, ?_, (ResetCamera_cases e r).1, (ResetCamera_cases e r).2, ?_⟩
  · intro hwf
    refine ⟨fun hb0 => ?_, hnil⟩
    by_contra hne
    obtain ⟨b, hb⟩ := List.exists_mem_of_ne_nil _ hne
    obtain ⟨p, hp, hv, hpb, hn⟩ := mem_aggregatedBoxes _ _ b hb
    have hle := hwf p hp hv b hpb
    have hlt : b.b1 < e.VTK_LARGE_FLOAT := by
      simp only [notBogus, Bool.and_eq_true, decide_eq_true_eq] at hn
      exact hn.1.1.1.1.2
    have hmin := (foldl_min_spec (fun b => b.b0) (fun b => b.b0) (fun _ _ => rfl)
      (aggregatedBoxes e.VTK_LARGE_FLOAT r.Props)
      { b0 := e.VTK_LARGE_FLOAT, b1 := -e.VTK_LARGE_FLOAT, b2 := e.VTK_LARGE_FLOAT,
        b3 := -e.VTK_LARGE_FLOAT, b4 := e.VTK_LARGE_FLOAT, b5 := -e.VTK_LARGE_FLOAT }).2.1 b hb
    rw [← ComputeVisiblePropBounds_eq_foldl] at hmin
    have : (ComputeVisiblePropBounds e.VTK_LARGE_FLOAT r.Props).b0 < e.VTK_LARGE_FLOAT :=
      lt_of_le_of_lt hmin (lt_of_le_of_lt hle hlt)
    exact absurd hb0 (ne_of_lt this)
  · simp [boundsLoop, foldl_boundsStep]

/-- Witness for C15 amended: the two visible unit boxes pass the test, the
first component of the box is 0, not the sentinel, and `ResetCamera()` goes on
to the bounds-taking version. -/
theorem ComputeVisiblePropBounds_empty_test_witness :
    (∀ p ∈ (propsRenderer twoBoxProps).Props,
      p.Visibility = true → ∀ b, p.Bounds = some b → b.b0 ≤ b.b1) ∧
    aggregatedBoxes exampleExternals.VTK_LARGE_FLOAT twoBoxProps ≠ [] ∧
    (ComputeVisiblePropBounds exampleExternals.VTK_LARGE_FLOAT twoBoxProps).b0 ≠
      exampleExternals.VTK_LARGE_FLOAT := by
  have hwf : ∀ p ∈ (propsRenderer twoBoxProps).Props,
      p.Visibility = true → ∀ b, p.Bounds = some b → b.b0 ≤ b.b1 := by
    intro p hp _ b hb
    simp only [propsRenderer, twoBoxProps, List.mem_cons, List.mem_singleton,
      List.not_mem_nil, or_false] at hp
    rcases hp with rfl | rfl <;>
      · simp only [boxProp, Option.some.injEq] at hb
        subst hb
        norm_num
  have hagg : aggregatedBoxes exampleExternals.VTK_LARGE_FLOAT twoBoxProps ≠ [] := by
    have h : aggregatedBoxes exampleExternals.VTK_LARGE_FLOAT twoBoxProps =
        [{ b0 := 0, b1 := 1, b2 := 0, b3 := 1, b4 := 0, b5 := 1 },
         { b0 := 2, b1 := 3, b2 := 2, b3 := 3, b4 := 2, b5 := 3 }] := by
      norm_num [aggregatedBoxes, twoBoxProps, boxProp, exampleProp, notBogus,
        exampleExternals, exampleLarge, List.filterMap_cons]
    rw [h]
    simp
  have hiff := (ComputeVisiblePropBounds_empty_test exampleExternals
    (propsRenderer twoBoxProps)).2.1 hwf
  exact ⟨hwf, hagg, fun h => hagg (hiff.mp h)⟩

/-! ## Lemmas on camera creation -/

/-- On a renderer with a camera, `ResetCamera()` leaves a camera. -/
theorem ResetCamera_camera_of_some (e : Externals) (r : vtkRenderer) (cam : vtkCamera)
    (hcam : r.ActiveCamera = some cam) :
    ∃ cam' : vtkCamera, (ResetCamera e r).ActiveCamera = some cam' := by
  by_cases h : (ComputeVisiblePropBounds e.VTK_LARGE_FLOAT r.Props).b0 = e.VTK_LARGE_FLOAT
  · exact ⟨cam, by rw [((ResetCamera_cases e r).1 h).1, hcam]⟩
  · obtain ⟨_, cam2, _, _, hres⟩ := ResetCameraBounds_of_some e r cam
      (ComputeVisiblePropBounds e.VTK_LARGE_FLOAT r.Props) hcam
    exact ⟨cam2, by rw [((ResetCamera_cases e r).2 h).1, hres]⟩

/-- Without a camera, `GetActiveCamera` installs a new one and resets it. -/
theorem GetActiveCamera_of_none (e : Externals) (r : vtkRenderer)
    (hcam : r.ActiveCamera = none) :
    GetActiveCamera e r = ResetCamera e { r with ActiveCamera := some e.NewCamera } := by
  rw [GetActiveCamera]
  simp [hcam]

/-- After `GetActiveCamera` the renderer has a camera. -/
theorem GetActiveCamera_camera (e : Externals) (r : vtkRenderer) :
    ∃ cam : vtkCamera, (GetActiveCamera e r).ActiveCamera = some cam := by
  cases hcam : r.ActiveCamera with
  | none =>
    rw [GetActiveCamera_of_none e r hcam]
    exact ResetCamera_camera_of_some e _ e.NewCamera rfl
  | some cam => exact ⟨cam, by rw [GetActiveCamera_of_some e r cam hcam, hcam]⟩

/-- The bounds-taking operations act on the renderer that `GetActiveCamera`
returns. -/
theorem ResetCameraBounds_GetActiveCamera (e : Externals) (r : vtkRenderer)
    (bounds : Bounds) :
    ResetCameraBounds e r bounds = ResetCameraBounds e (GetActiveCamera e r) bounds ∧
    ResetCameraClippingRangeBounds e r bounds =
      ResetCameraClippingRangeBounds e (GetActiveCamera e r) bounds := by
  obtain ⟨cam, hcam⟩ := GetActiveCamera_camera e r
  constructor
  · conv_rhs => rw [ResetCameraBounds]
    rw [GetActiveCamera_of_some e _ cam hcam]
    conv_lhs => rw [ResetCameraBounds]
  · conv_rhs => rw [ResetCameraClippingRangeBounds]
    rw [GetActiveCamera_of_some e _ cam hcam]
    conv_lhs => rw [ResetCameraClippingRangeBounds]

/-! ## Claims on camera creation -/

/-- C16: the mutually recursive camera functions are total (they are defined
by well-founded recursion, without fuel), and for every renderer state and
every prop list `GetActiveCamera()` returns with `ActiveCamera` non-null: a
camera that exists is returned with the renderer unchanged, and a missing one
is created and reset once. Hence `ResetCamera(bounds)` and
`ResetCameraClippingRange(bounds)` never take their "non-existant camera"
branch: from every state they store the clipping range, and `ResetCamera(bounds)`
the focal point and the parallel scale, in the camera that
`GetActiveCamera()` returned. -/
theorem GetActiveCamera_creates (e : Externals) (r : vtkRenderer) :
    (∃ cam : vtkCamera, (GetActiveCamera e r).ActiveCamera = some cam) ∧
    (∀ cam : vtkCamera, r.ActiveCamera = some cam → GetActiveCamera e r = r) ∧
    (r.ActiveCamera = none →
      GetActiveCamera e r = ResetCamera e { r with ActiveCamera := some e.NewCamera }) ∧
    (∀ bounds : Bounds, ∃ cam : vtkCamera,
      (GetActiveCamera e r).ActiveCamera = some cam ∧
      (ResetCameraClippingRangeBounds e r bounds).ActiveCamera =
        some (cam.SetClippingRange
          (clippingRange e cam.ViewPlaneNormal cam.Position bounds))) ∧
    (∀ bounds : Bounds, ∃ cam' : vtkCamera,
      (ResetCameraBounds e r bounds).ActiveCamera = some cam' ∧
      cam'.FocalPoint = boxCenter bounds ∧ cam'.ParallelScale = resetWidth bounds) := by
  obtain ⟨cam, hcam⟩ := GetActiveCamera_camera e r
  refine ⟨⟨cam, hcam⟩, fun c hc => GetActiveCamera_of_some e r c hc,
    GetActiveCamera_of_none e r, ?_, ?_⟩
  · intro bounds
    refine ⟨cam, hcam, ?_⟩
    rw [(ResetCameraBounds_GetActiveCamera e r bounds).2,
      ResetCameraClippingRangeBounds_of_some e _ cam bounds hcam]
  · intro bounds
    obtain ⟨_, cam2, _, h2, hres⟩ :=
      ResetCameraBounds_of_some e (GetActiveCamera e r) cam bounds hcam
    refine ⟨cam2, ?_, by rw [h2], by rw [h2]⟩
    rw [(ResetCameraBounds_GetActiveCamera e r bounds).1, hres]

/-- Witness for C16: on the renderer as constructed (no camera, no props)
`GetActiveCamera` installs the new camera and leaves it as created; asked again,
it returns the same renderer; and `ResetCamera(bounds)` on the renderer without
a camera ends with a camera focused on the center of the bounds. -/
theorem GetActiveCamera_creates_witness :
    GetActiveCamera exampleExternals exampleRenderer = cameraRenderer ∧
    GetActiveCamera exampleExternals cameraRenderer = cameraRenderer ∧
    ∃ cam' : vtkCamera,
      (ResetCameraBounds exampleExternals exampleRenderer diagonalThreeBox).ActiveCamera =
        some cam' ∧
      cam'.FocalPoint = { v0 := 1, v1 := 1 / 2, v2 := 1 } ∧ cam'.ParallelScale = 2 := by
  refine ⟨?_, ?_, ?_⟩
  · rw [(GetActiveCamera_creates exampleExternals exampleRenderer).2.2.1 rfl]
    have h : (ComputeVisiblePropBounds exampleExternals.VTK_LARGE_FLOAT
        cameraRenderer.Props).b0 = exampleExternals.VTK_LARGE_FLOAT := rfl
    exact ((ResetCamera_cases exampleExternals cameraRenderer).1 h).1
  · exact (GetActiveCamera_creates exampleExternals cameraRenderer).2.1 exampleCamera rfl
  · obtain ⟨cam', h1, h2, h3⟩ :=
      (GetActiveCamera_creates exampleExternals exampleRenderer).2.2.2.2 diagonalThreeBox
    refine ⟨cam', h1, ?_, ?_⟩
    · rw [h2]; norm_num [boxCenter, diagonalThreeBox]
    · rw [h3]; norm_num [resetWidth, diagonalThreeBox]

/-! ## Claims on the view-up repair -/

/-- The view-up that `ResetCamera(bounds)` leaves in a camera that exists: the
permuted vector when the old view-up is nearly parallel to the view-plane
normal, the old view-up otherwise; the view-plane normal is not touched. -/
theorem ResetCameraBounds_viewUp (e : Externals) (r : vtkRenderer) (cam : vtkCamera)
    (bounds : Bounds) (hcam : r.ActiveCamera = some cam) :
    ∃ cam' : vtkCamera, (ResetCameraBounds e r bounds).ActiveCamera = some cam' ∧
      cam'.ViewPlaneNormal = cam.ViewPlaneNormal ∧
      cam'.ViewUp =
        if |Dot cam.ViewUp cam.ViewPlaneNormal| > 0.999 then
          { v0 := -cam.ViewUp.v2, v1 := cam.ViewUp.v0, v2 := cam.ViewUp.v1 }
        else cam.ViewUp := by
  rw [ResetCameraBounds]
  simp only [GetActiveCamera_of_some e r cam hcam, hcam]
  rw [ResetCameraClippingRangeBounds_of_some e _ _ bounds rfl]
  by_cases h : |Dot cam.ViewUp cam.ViewPlaneNormal| > 0.999
  · exact ⟨_, rfl, by simp only [h, if_true]; rfl, by simp only [h, if_true]; rfl⟩
  · exact ⟨_, rfl, by simp only [h, if_false]; rfl, by simp only [h, if_false]; rfl⟩

/-- C14, as stated, fails: for the unit vector (1/3, 2/3, 2/3) as view-up and
view-plane normal the new view-up (-2/3, 1/3, 2/3) has dot product 4/9 with
the old one, so it is not perpendicular to it; and for the unit vector
(23/41, -24/41, 24/41) the new view-up (-24/41, 23/41, -24/41) has dot product
-1680/1681 with the view-plane normal, so it is still nearly parallel to it. -/
theorem ResetCamera_viewUp_counterexample :
    (Dot (parallelCamera (1 / 3) (2 / 3) (2 / 3)).ViewUp
        (parallelCamera (1 / 3) (2 / 3) (2 / 3)).ViewUp = 1 ∧
      ∃ cam' : vtkCamera,
        (ResetCameraBounds exampleExternals (parallelRenderer (1 / 3) (2 / 3) (2 / 3))
          unitCube).ActiveCamera = some cam' ∧
        cam'.ViewUp = { v0 := -2 / 3, v1 := 1 / 3, v2 := 2 / 3 } ∧
        Dot cam'.ViewUp (parallelCamera (1 / 3) (2 / 3) (2 / 3)).ViewUp = 4 / 9) ∧
    (Dot (parallelCamera (23 / 41) (-24 / 41) (24 / 41)).ViewUp
        (parallelCamera (23 / 41) (-24 / 41) (24 / 41)).ViewUp = 1 ∧
      ∃ cam' : vtkCamera,
        (ResetCameraBounds exampleExternals (parallelRenderer (23 / 41) (-24 / 41) (24 / 41))
          unitCube).ActiveCamera = some cam' ∧
        cam'.ViewUp = { v0 := -24 / 41, v1 := 23 / 41, v2 := -24 / 41 } ∧
        Dot cam'.ViewUp cam'.ViewPlaneNormal = -1680 / 1681 ∧
        ¬ |Dot cam'.ViewUp cam'.ViewPlaneNormal| ≤ 0.999) := by
  constructor
  · refine ⟨by norm_num [Dot, parallelCamera], ?_⟩
    obtain ⟨cam', h1, _, h3⟩ := ResetCameraBounds_viewUp exampleExternals
      (parallelRenderer (1 / 3) (2 / 3) (2 / 3)) (parallelCamera (1 / 3) (2 / 3) (2 / 3))
      unitCube rfl
    have hup : cam'.ViewUp = { v0 := -2 / 3, v1 := 1 / 3, v2 := 2 / 3 } := by
      rw [h3, if_pos (by norm_num [Dot, parallelCamera, abs_of_pos])]
      norm_num [parallelCamera]
    exact ⟨cam', h1, hup, by rw [hup]; norm_num [Dot, parallelCamera]⟩
  · refine ⟨by norm_num [Dot, parallelCamera], ?_⟩
    obtain ⟨cam', h1, h2, h3⟩ := ResetCameraBounds_viewUp exampleExternals
      (parallelRenderer (23 / 41) (-24 / 41) (24 / 41))
      (parallelCamera (23 / 41) (-24 / 41) (24 / 41)) unitCube rfl
    have hup : cam'.ViewUp = { v0 := -24 / 41, v1 := 23 / 41, v2 := -24 / 41 } := by
      rw [h3, if_pos (by norm_num [Dot, parallelCamera, abs_of_pos])]
      norm_num [parallelCamera]
    have hdot : Dot cam'.ViewUp cam'.ViewPlaneNormal = -1680 / 1681 := by
      rw [hup, h2]
      norm_num [Dot, parallelCamera]
    refine ⟨cam', h1, hup, hdot, ?_⟩
    rw [hdot]
    norm_num [abs_of_neg]

/-- C14, amended: for every renderer with an active camera whose view-up `up`
and view-plane normal `vn` satisfy |dot(up, vn)| > 0.999, `ResetCamera(bounds)`
replaces the view-up by (-up.z, up.x, up.y), a vector of the same length as
`up` whose dot product with `up` is up.x*up.y + up.y*up.z - up.x*up.z, so that
it is perpendicular to the old view-up when `up` lies along a coordinate axis;
when |dot(up, vn)| <= 0.999 the view-up is left unchanged. The view-plane
normal is kept in both cases. -/
theorem ResetCamera_viewUp (e : Externals) (r : vtkRenderer) (cam : vtkCamera)
    (bounds : Bounds) (hcam : r.ActiveCamera = some cam) :
    ∃ cam' : vtkCamera, (ResetCameraBounds e r bounds).ActiveCamera = some cam' ∧
      cam'.ViewPlaneNormal = cam.ViewPlaneNormal ∧
      (|Dot cam.ViewUp cam.ViewPlaneNormal| > 0.999 →
        cam'.ViewUp = { v0 := -cam.ViewUp.v2, v1 := cam.ViewUp.v0, v2 := cam.ViewUp.v1 } ∧
        Dot cam'.ViewUp cam'.ViewUp = Dot cam.ViewUp cam.ViewUp ∧
        Dot cam'.ViewUp cam.ViewUp =
          cam.ViewUp.v0 * cam.ViewUp.v1 + cam.ViewUp.v1 * cam.ViewUp.v2 -
            cam.ViewUp.v0 * cam.ViewUp.v2 ∧
        ((cam.ViewUp.v0 = 0 ∧ cam.ViewUp.v1 = 0) ∨ (cam.ViewUp.v0 = 0 ∧ cam.ViewUp.v2 = 0) ∨
            (cam.ViewUp.v1 = 0 ∧ cam.ViewUp.v2 = 0) →
          Dot cam'.ViewUp cam.ViewUp = 0)) ∧
      (|Dot cam.ViewUp cam.ViewPlaneNormal| ≤ 0.999 → cam'.ViewUp = cam.ViewUp) := by
  obtain ⟨cam', h1, h2, h3⟩ := ResetCameraBounds_viewUp e r cam bounds hcam
  refine ⟨cam', h1, h2, ?_, ?_⟩
  · intro h
    have hup : cam'.ViewUp =
        { v0 := -cam.ViewUp.v2, v1 := cam.ViewUp.v0, v2 := cam.ViewUp.v1 } := by
      rw [h3, if_pos h]
    refine ⟨hup, ?_, ?_, ?_⟩
    · rw [hup]; simp only [Dot]; ring
    · rw [hup]; simp only [Dot]; ring
    · intro haxis
      rw [hup]
      simp only [Dot]
      rcases haxis with ⟨ha, hb⟩ | ⟨ha, hb⟩ | ⟨ha, hb⟩ <;> rw [ha, hb] <;> ring
  · intro h
    rw [h3, if_neg (not_lt.mpr h)]

/-- Witness for C14 amended: a camera whose view-up and view-plane normal are
both the z axis ends with view-up (-1, 0, 0), perpendicular to the old one;
the example camera, whose view-up (0,1,0) is perpendicular to its normal
(0,0,1), keeps its view-up. -/
theorem ResetCamera_viewUp_witness :
    (∃ cam' : vtkCamera,
      (ResetCameraBounds exampleExternals (parallelRenderer 0 0 1) unitCube).ActiveCamera =
        some cam' ∧
      cam'.ViewUp = { v0 := -1, v1 := 0, v2 := 0 } ∧
      Dot cam'.ViewUp (parallelCamera 0 0 1).ViewUp = 0) ∧
    (∃ cam' : vtkCamera,
      (ResetCameraBounds exampleExternals cameraRenderer unitCube).ActiveCamera = some cam' ∧
      cam'.ViewUp = { v0 := 0, v1 := 1, v2 := 0 }) := by
  constructor
  · obtain ⟨cam', h1, _, h3, _⟩ := ResetCamera_viewUp exampleExternals
      (parallelRenderer 0 0 1) (parallelCamera 0 0 1) unitCube rfl
    obtain ⟨hup, _, _, hperp⟩ := h3 (by norm_num [Dot, parallelCamera])
    refine ⟨cam', h1, ?_, hperp (Or.inl ⟨rfl, rfl⟩)⟩
    rw [hup]
    norm_num [parallelCamera]
  · obtain ⟨cam', h1, _, _, h4⟩ := ResetCamera_viewUp exampleExternals
      cameraRenderer exampleCamera unitCube rfl
    exact ⟨cam', h1, h4 (by norm_num [Dot, exampleCamera])⟩

/-! ## The checked allocation loop -/

/-- The checked loop body fails exactly on a zero total time and otherwise
does what the loop body does. -/
theorem allocatePropChecked_eq (initialized : Bool) (totalTime A : ℚ) (aProp : vtkProp) :
    allocatePropChecked initialized totalTime A aProp =
      if totalTime = 0 then none else some (allocateProp initialized totalTime A aProp) := by
  unfold allocatePropChecked divideChecked allocateProp
  by_cases h : totalTime = 0 <;> simp [h]

/-- The checked iterations fail exactly when there is a prop to allocate and
the total time is zero. -/
theorem allocateAll_eq (initialized : Bool) (totalTime A : ℚ) (l : List vtkProp) :
    allocateAll (allocatePropChecked initialized totalTime A) l =
      if totalTime = 0 ∧ l ≠ [] then none
      else some (l.map (allocateProp initialized totalTime A)) := by
  induction l with
  | nil => simp [allocateAll]
  | cons p l ih =>
    rw [allocateAll, allocatePropChecked_eq, ih]
    by_cases h : totalTime = 0
    · simp [h]
    · simp [h]

/-- The checked `AllocateTime` fails exactly when the culler chain leaves a
prop to allocate and a zero total time, and otherwise returns what
`AllocateTime` returns. -/
theorem AllocateTimeChecked_eq (r : vtkRenderer) :
    AllocateTimeChecked r =
      if (runCullers r).totalTime = 0 ∧
          (runCullers r).PropArray.take (runCullers r).PropArrayCount ≠ [] then none
      else some (AllocateTime r) := by
  unfold AllocateTimeChecked allocateLoopChecked
  simp only [allocateAll_eq]
  split_ifs with h
  · rfl
  · rfl

/-! ## Claims on the divisor of `AllocateTime` -/

/-- C9, as stated, fails: one visible prop and a culler that returns a total
time of 0 while leaving the count at 1; the allocation loop then runs for that
prop and its division has the divisor 0. -/
theorem AllocateTime_divisor_counterexample :
    zeroTotalRenderer.PropArrayCount = 1 ∧
    (runCullers zeroTotalRenderer).PropArrayCount = 1 ∧
    (runCullers zeroTotalRenderer).totalTime = 0 ∧
    allocatePropChecked (runCullers zeroTotalRenderer).initialized
      (runCullers zeroTotalRenderer).totalTime zeroTotalRenderer.AllocatedRenderTime
      (exampleProp 1) = none ∧
    AllocateTimeChecked zeroTotalRenderer = none := by
  refine ⟨rfl, rfl, rfl, ?_, ?_⟩
  · simp [allocatePropChecked, divideChecked, runCullers, zeroTotalRenderer, exampleRenderer,
      cullStep, constantTotalCuller]
  · simp [AllocateTimeChecked, allocateLoopChecked, allocateAll, allocatePropChecked,
      divideChecked, runCullers, zeroTotalRenderer, exampleRenderer, cullStep,
      constantTotalCuller]

/-- C9, amended: when the count the culler chain leaves is 0, `AllocateTime`
executes no division and assigns no prop an allocated time (the array is left
as the cullers left it); when the culler collection is empty, the divisor is
the prop count and no division has a zero divisor; in general `AllocateTime`
divides by a zero total time exactly when the culler chain leaves at least
one prop to allocate together with a total time of 0, and in every other case
the checked run returns what `AllocateTime` returns. -/
theorem AllocateTime_divisor (r : vtkRenderer) :
    ((runCullers r).PropArrayCount = 0 →
      AllocateTimeChecked r = some (AllocateTime r) ∧
      (AllocateTime r).PropArray = (runCullers r).PropArray) ∧
    (r.Cullers = [] →
      (runCullers r).totalTime = (r.PropArrayCount : ℚ) ∧
      AllocateTimeChecked r = some (AllocateTime r)) ∧
    (AllocateTimeChecked r = none ↔
      (runCullers r).totalTime = 0 ∧
        (runCullers r).PropArray.take (runCullers r).PropArrayCount ≠ []) ∧
    (AllocateTimeChecked r ≠ none → AllocateTimeChecked r = some (AllocateTime r)) := by
  have heq := AllocateTimeChecked_eq r
  refine ⟨?_, ?_, ?_, ?_⟩
  · intro h0
    constructor
    · rw [heq, if_neg]
      simp [h0]
    · simp [AllocateTime, allocateLoop, h0]
  · intro hC
    have hrun := runCullers_nil r hC
    refine ⟨by rw [hrun], ?_⟩
    rw [heq, if_neg]
    rw [hrun]
    rintro ⟨hz, hne⟩
    have hz' : (r.PropArrayCount : ℚ) = 0 := hz
    have h0 : r.PropArrayCount = 0 := by exact_mod_cast hz'
    simp [h0] at hne
  · rw [heq]
    split_ifs with h
    · simp [h]
    · simp only [false_iff]
      exact fun h' => h h'
  · intro hne
    rw [heq] at hne ⊢
    split_ifs at hne ⊢ with h
    · exact absurd rfl hne
    · rfl

/-- Witness for C9 amended: three props and no culler, the divisor is 3 and
the checked run succeeds with 100/3 for each prop; one prop culled by the only
culler, no division and the prop keeps its allocated time. -/
theorem AllocateTime_divisor_witness :
    (threePropRenderer.Cullers = [] ∧
      (runCullers threePropRenderer).totalTime = 3 ∧
      AllocateTimeChecked threePropRenderer = some (AllocateTime threePropRenderer)) ∧
    ((runCullers cullAllRenderer).PropArrayCount = 0 ∧
      AllocateTimeChecked cullAllRenderer = some (AllocateTime cullAllRenderer) ∧
      (AllocateTime cullAllRenderer).PropArray = [exampleProp 1]) := by
  have h0 : (runCullers cullAllRenderer).PropArrayCount = 0 := rfl
  have h3 := (AllocateTime_divisor threePropRenderer).2.1 rfl
  have hc := (AllocateTime_divisor cullAllRenderer).1 h0
  refine ⟨⟨rfl, ?_, h3.2⟩, h0, hc.1, ?_⟩
  · rw [h3.1]
    norm_num [threePropRenderer, exampleRenderer]
  · rw [hc.2]
    rfl

/-! ## Claims on the empty-bounds abort -/

/-- Widening the sentinel box by boxes that widen nothing leaves it as it is. -/
theorem foldl_widen_sentinel (L : ℚ) (Q : List Bounds)
    (h : ∀ b ∈ Q, widensNothing L b) :
    Q.foldl widen (sentinelBox L) = sentinelBox L := by
  induction Q with
  | nil => rfl
  | cons b Q ih =>
    obtain ⟨h0, h1, h2, h3, h4, h5⟩ := h b (List.mem_cons_self _ _)
    have hw : widen (sentinelBox L) b = sentinelBox L := by
      simp only [widen, sentinelBox, h0, h1, h2, h3, h4, h5, if_false]
    rw [List.foldl_cons, hw]
    exact ih (fun c hc => h c (List.mem_cons_of_mem _ hc))

/-- The sentinel box is returned exactly when no box that passes the test of
the loop widens it. -/
theorem ComputeVisiblePropBounds_eq_sentinel_iff (L : ℚ) (Props : List vtkProp) :
    ComputeVisiblePropBounds L Props = sentinelBox L ↔
      ∀ b ∈ aggregatedBoxes L Props, widensNothing L b := by
  rw [ComputeVisiblePropBounds_eq_foldl]
  constructor
  · intro heq b hb
    have hmin := fun (get : Bounds → ℚ) hstep =>
      (foldl_min_spec get get hstep (aggregatedBoxes L Props) (sentinelBox L)).2.1 b hb
    have hmax := fun (get : Bounds → ℚ) hstep =>
      (foldl_max_spec get get hstep (aggregatedBoxes L Props) (sentinelBox L)).2.1 b hb
    have e0 := hmin (fun b => b.b0) (fun _ _ => rfl)
    have e1 := hmax (fun b => b.b1) (fun _ _ => rfl)
    have e2 := hmin (fun b => b.b2) (fun _ _ => rfl)
    have e3 := hmax (fun b => b.b3) (fun _ _ => rfl)
    have e4 := hmin (fun b => b.b4) (fun _ _ => rfl)
    have e5 := hmax (fun b => b.b5) (fun _ _ => rfl)
    have heq' : List.foldl widen (sentinelBox L) (aggregatedBoxes L Props) = sentinelBox L :=
      heq
    rw [heq'] at e0 e1 e2 e3 e4 e5
    simp only [sentinelBox] at e0 e1 e2 e3 e4 e5
    exact ⟨not_lt.mpr e0, not_lt.mpr e1, not_lt.mpr e2, not_lt.mpr e3, not_lt.mpr e4,
      not_lt.mpr e5⟩
  · intro h
    exact foldl_widen_sentinel L _ h

/-- C11, as stated, fails: the visible box (5, -2L, 0, 1, 0, 1) is not finite
(its x maximum lies beyond the negative sentinel), so no prop is visible with
non-null finite bounds; yet the box passes the test of the loop,
`ComputeVisiblePropBounds` returns (5, -L, 0, 1, 0, 1) and `ResetCamera()`
moves the focal point of the camera. -/
theorem ResetCamera_empty_abort_counterexample :
    finiteVisibleBoxes exampleLarge beyondSentinelProps = [] ∧
    ComputeVisiblePropBounds exampleLarge beyondSentinelProps =
      { b0 := 5, b1 := -exampleLarge, b2 := 0, b3 := 1, b4 := 0, b5 := 1 } ∧
    (propsRenderer beyondSentinelProps).ActiveCamera = some exampleCamera ∧
    ∃ cam' : vtkCamera,
      (ResetCamera exampleExternals (propsRenderer beyondSentinelProps)).ActiveCamera =
        some cam' ∧
      cam'.FocalPoint = { v0 := (5 + -exampleLarge) / 2, v1 := 1 / 2, v2 := 1 / 2 } ∧
      cam'.FocalPoint ≠ exampleCamera.FocalPoint := by
  have hbox : ComputeVisiblePropBounds exampleLarge beyondSentinelProps =
      { b0 := 5, b1 := -exampleLarge, b2 := 0, b3 := 1, b4 := 0, b5 := 1 } := by
    norm_num [ComputeVisiblePropBounds, boundsLoop, beyondSentinelProps, boundsStep, boxProp,
      exampleProp, notBogus, widen, exampleLarge]
  refine ⟨?_, hbox, rfl, ?_⟩
  · norm_num [finiteVisibleBoxes, beyondSentinelProps, boxProp, exampleProp, strictlyInside,
      exampleLarge, List.filterMap_cons]
  · have hb0 : (ComputeVisiblePropBounds exampleExternals.VTK_LARGE_FLOAT
        (propsRenderer beyondSentinelProps).Props).b0 ≠ exampleExternals.VTK_LARGE_FLOAT := by
      show (ComputeVisiblePropBounds exampleLarge beyondSentinelProps).b0 ≠ exampleLarge
      rw [hbox]
      norm_num [exampleLarge]
    obtain ⟨_, cam2, _, h2, hres⟩ := ResetCameraBounds_of_some exampleExternals
      (propsRenderer beyondSentinelProps) exampleCamera
      (ComputeVisiblePropBounds exampleExternals.VTK_LARGE_FLOAT
        (propsRenderer beyondSentinelProps).Props) rfl
    have hfocal : cam2.FocalPoint =
        { v0 := (5 + -exampleLarge) / 2, v1 := 1 / 2, v2 := 1 / 2 } := by
      rw [h2]
      show boxCenter (ComputeVisiblePropBounds exampleLarge beyondSentinelProps) = _
      rw [hbox]
      norm_num [boxCenter]
    refine ⟨cam2, ?_, hfocal, ?_⟩
    · rw [((ResetCamera_cases exampleExternals (propsRenderer beyondSentinelProps)).2 hb0).1,
        hres]
    · rw [hfocal]
      norm_num [exampleCamera, exampleLarge]

/-- C11, amended: `ComputeVisiblePropBounds` returns the sentinel box exactly
when no visible prop with non-null bounds both passes the test of the loop and
has a minimum below `VTK_LARGE_FLOAT` or a maximum above `-VTK_LARGE_FLOAT` on
some axis. That is so for the empty list, for every list in which no prop
passes the test, and for every list of well-formed boxes in which no prop is
visible with non-null finite bounds. The no-argument `ResetCamera()` and
`ResetCameraClippingRange()` then leave the renderer, and with it the active
camera and whether one exists, unchanged. -/
theorem ResetCamera_empty_abort (e : Externals) (r : vtkRenderer) :
    (ComputeVisiblePropBounds e.VTK_LARGE_FLOAT r.Props =
        { b0 := e.VTK_LARGE_FLOAT, b1 := -e.VTK_LARGE_FLOAT, b2 := e.VTK_LARGE_FLOAT,
          b3 := -e.VTK_LARGE_FLOAT, b4 := e.VTK_LARGE_FLOAT, b5 := -e.VTK_LARGE_FLOAT } ↔
      ∀ b ∈ aggregatedBoxes e.VTK_LARGE_FLOAT r.Props, widensNothing e.VTK_LARGE_FLOAT b) ∧
    (r.Props = [] →
      ∀ b ∈ aggregatedBoxes e.VTK_LARGE_FLOAT r.Props, widensNothing e.VTK_LARGE_FLOAT b) ∧
    (aggregatedBoxes e.VTK_LARGE_FLOAT r.Props = [] →
      ∀ b ∈ aggregatedBoxes e.VTK_LARGE_FLOAT r.Props, widensNothing e.VTK_LARGE_FLOAT b) ∧
    ((∀ p ∈ r.Props, p.Visibility = true → ∀ b, p.Bounds = some b → wellFormed b) →
      finiteVisibleBoxes e.VTK_LARGE_FLOAT r.Props = [] →
      ∀ b ∈ aggregatedBoxes e.VTK_LARGE_FLOAT r.Props, widensNothing e.VTK_LARGE_FLOAT b) ∧
    ((∀ b ∈ aggregatedBoxes e.VTK_LARGE_FLOAT r.Props, widensNothing e.VTK_LARGE_FLOAT b) →
      ResetCamera e r = r ∧ ResetCameraClippingRange e r = r ∧
      (ResetCamera e r).ActiveCamera = r.ActiveCamera ∧
      (ResetCameraClippingRange e r).ActiveCamera = r.ActiveCamera) := by
  have hiff := ComputeVisiblePropBounds_eq_sentinel_iff e.VTK_LARGE_FLOAT r.Props
  refine ⟨hiff, ?_, ?_, ?_, ?_⟩
  · intro h b hb
    rw [h] at hb
    simp [aggregatedBoxes] at hb
  · intro h b hb
    rw [h] at hb
    simp at hb
  · intro hwf h b hb
    rw [aggregatedBoxes_eq_finiteVisibleBoxes _ _ hwf, h] at hb
    simp at hb
  · intro h
    have hbox := hiff.mpr h
    have hb0 : (ComputeVisiblePropBounds e.VTK_LARGE_FLOAT r.Props).b0 = e.VTK_LARGE_FLOAT := by
      rw [hbox]; rfl
    obtain ⟨h1, h2⟩ := (ResetCamera_cases e r).1 hb0
    exact ⟨h1, h2, by rw [h1], by rw [h2]⟩

/-- Witness for C11 amended: with an invisible box, a prop without bounds and a
prop with sentinel bounds, and with the example camera active, both operations
leave the camera as it is; with a visible prop whose box is the inverted
sentinel box, which passes the test and widens nothing, `ResetCamera()` leaves
the renderer as it is; so it does on the empty prop list without a camera. -/
theorem ResetCamera_empty_abort_witness :
    aggregatedBoxes exampleExternals.VTK_LARGE_FLOAT (propsRenderer noFiniteProps).Props = [] ∧
    (ResetCamera exampleExternals (propsRenderer noFiniteProps)).ActiveCamera =
      some exampleCamera ∧
    (ResetCameraClippingRange exampleExternals (propsRenderer noFiniteProps)).ActiveCamera =
      some exampleCamera ∧
    ResetCamera exampleExternals (propsRenderer invertedSentinelProps) =
      propsRenderer invertedSentinelProps ∧
    ResetCamera exampleExternals exampleRenderer = exampleRenderer := by
  have h : aggregatedBoxes exampleExternals.VTK_LARGE_FLOAT
      (propsRenderer noFiniteProps).Props = [] := by
    norm_num [aggregatedBoxes, propsRenderer, noFiniteProps, boxProp, exampleProp, notBogus,
      exampleExternals, exampleLarge, List.filterMap_cons]
  have t1 := ResetCamera_empty_abort exampleExternals (propsRenderer noFiniteProps)
  have t2 := ResetCamera_empty_abort exampleExternals (propsRenderer invertedSentinelProps)
  have t3 := ResetCamera_empty_abort exampleExternals exampleRenderer
  have hinv : ∀ b ∈ aggregatedBoxes exampleExternals.VTK_LARGE_FLOAT
      (propsRenderer invertedSentinelProps).Props,
      widensNothing exampleExternals.VTK_LARGE_FLOAT b := by
    intro b hb
    have hagg : aggregatedBoxes exampleExternals.VTK_LARGE_FLOAT
        (propsRenderer invertedSentinelProps).Props =
        [{ b0 := exampleLarge, b1 := -exampleLarge, b2 := exampleLarge, b3 := -exampleLarge,
           b4 := exampleLarge, b5 := -exampleLarge }] := by
      norm_num [aggregatedBoxes, propsRenderer, invertedSentinelProps, boxProp, exampleProp,
        notBogus, exampleExternals, exampleLarge, List.filterMap_cons]
    rw [hagg, List.mem_singleton] at hb
    subst hb
    simp [widensNothing, exampleExternals]
  have r1 := t1.2.2.2.2 (t1.2.2.1 h)
  exact ⟨h, r1.2.2.1, r1.2.2.2, (t2.2.2.2.2 hinv).1, (t3.2.2.2.2 (t3.2.1 rfl)).1⟩

/-! ## Claims on cache invalidation -/

end VTK
